import Mathlib

/-!
Verification of the ntr-viewer parsing and geometry-derivation core.

This file shallowly embeds the pipeline of the repository:
  * `src/shared/iter.ts` (line enumeration, comment stripping, tokenization),
  * `src/ntr/lexer.ts` (records and fields),
  * `src/ntr/parser.ts` (record interpretation into typed elements),
  * `src/ntr/validation.ts` (document validation / normalization),
  * `src/viewer/sceneGraph.ts` (point resolution and bounding box),
  * `src/viewer/RevitStylePointerInput.ts` (bend-arc fitting),
and proves the claims C1-C10 about it.

JavaScript strings are modelled as `List Char` (`Str`); JavaScript numbers
are modelled as exact values: `JSNum` (a rational, or an infinity; `NaN` is
represented by `Option.none` at the points where the source checks
`Number.isNaN`).  The bend-arc geometry, which is pure real arithmetic in the
source, is modelled over `ℝ`.  Only the ASCII fragment of the JavaScript
whitespace / case conversions is modelled (all record text the grammar cares
about is ASCII).
-/

namespace NTR

/-- JavaScript strings, modelled as lists of characters. -/
abbrev Str := List Char

/-- Shorthand to write a `Str` from a string literal. -/
def str (s : String) : Str := s.toList

/-- The ASCII part of JavaScript's `\s` / `String.prototype.trim` whitespace
class (space, tab, line feed, carriage return, vertical tab, form feed). -/
def isWs (c : Char) : Bool :=
  c = ' ' || c = '\t' || c = '\n' || c = '\r' || c = '\x0b' || c = '\x0c'

/-- JavaScript `String.prototype.trim`: drop leading and trailing whitespace. -/
def jsTrim (s : Str) : Str :=
  ((s.dropWhile isWs).reverse.dropWhile isWs).reverse

/-- JavaScript `String.prototype.toUpperCase` (ASCII letters only). -/
def jsToUpper (s : Str) : Str := s.map Char.toUpper

/-- Accumulator loop of `jsSplit`: split on the separator, keeping empty
parts, exactly like JavaScript's `String.prototype.split` with a
single-character separator. -/
def jsSplitGo (sep : Char) : Str → Str → List Str
  | [], cur => [cur]
  | c :: rest, cur =>
    if c = sep then cur :: jsSplitGo sep rest []
    else jsSplitGo sep rest (cur ++ [c])

/-- JavaScript `s.split(sep)` for a one-character separator
(`"".split(sep) = [""]`, empty parts are kept). -/
def jsSplit (sep : Char) (s : Str) : List Str := jsSplitGo sep s []

/-- Decimal digit test, as in the ECMAScript `StrDecimalLiteral` grammar. -/
def isDigit (c : Char) : Bool := '0' ≤ c && c ≤ '9'

/-- Numeric value of a decimal digit character. -/
def digitVal (c : Char) : ℕ := c.toNat - 48

/-- Value of a digit run read left to right. -/
def digitsToNat (s : Str) : ℕ := s.foldl (fun a c => a * 10 + digitVal c) 0

/-- A JavaScript number that is not `NaN`: an exact finite value or a signed
infinity.  `NaN` is modelled as `Option.none` in `parseFloat`'s result, which
is what `Number.isNaN` observes in the source. -/
inductive JSNum where
  | num (q : ℚ)
  | posInf
  | negInf
deriving DecidableEq

/-- `≤` on non-`NaN` JavaScript numbers. -/
def jsLe : JSNum → JSNum → Bool
  | .negInf, _ => true
  | .num _, .negInf => false
  | .num a, .num b => a ≤ b
  | .num _, .posInf => true
  | .posInf, .posInf => true
  | .posInf, _ => false

/-- JavaScript `Math.min` on non-`NaN` numbers. -/
def jsMin (a b : JSNum) : JSNum := if jsLe a b then a else b

/-- JavaScript `Math.max` on non-`NaN` numbers. -/
def jsMax (a b : JSNum) : JSNum := if jsLe a b then b else a

/-- `Number.isFinite` on a non-`NaN` JavaScript number. -/
def JSNum.isFinite : JSNum → Bool
  | .num _ => true
  | _ => false

/-- Exponent part of `parseFloat`: an `e`/`E` followed by an optional sign and
at least one digit; if no digit follows, the exponent is not part of the
longest valid prefix and contributes `0`. -/
def parseFloatExp (s : Str) : ℤ :=
  match s with
  | c :: rest =>
    if c = 'e' || c = 'E' then
      let (eneg, rest') : Bool × Str :=
        match rest with
        | '+' :: r => (false, r)
        | '-' :: r => (true, r)
        | r => (false, r)
      let ed := rest'.takeWhile isDigit
      if ed = [] then 0
      else if eneg then -(digitsToNat ed : ℤ) else (digitsToNat ed : ℤ)
    else 0
  | [] => 0

/-- ECMAScript `parseFloat`: skip leading whitespace, then read the longest
prefix that is a `StrDecimalLiteral` (optional sign, then `Infinity` or
digits with an optional fraction and exponent); `none` when no prefix parses
(the `NaN` result). -/
def parseFloat (s : Str) : Option JSNum :=
  let t := s.dropWhile isWs
  let (neg, r) : Bool × Str :=
    match t with
    | '+' :: r => (false, r)
    | '-' :: r => (true, r)
    | r => (false, r)
  if (str "Infinity").isPrefixOf r then
    some (if neg then .negInf else .posInf)
  else
    let intD := r.takeWhile isDigit
    let r1 := r.dropWhile isDigit
    let (fracD, r2) : Str × Str :=
      match r1 with
      | '.' :: r' => (r'.takeWhile isDigit, r'.dropWhile isDigit)
      | _ => ([], r1)
    if intD = [] && fracD = [] then none
    else
      let e := parseFloatExp r2
      let m : ℤ := (digitsToNat intD * 10 ^ fracD.length + digitsToNat fracD : ℕ)
      -- the literal's exact value  m · 10^e / 10^|fracD|  as one rational
      let value : ℚ := mkRat (m * 10 ^ e.toNat) (10 ^ fracD.length * 10 ^ (-e).toNat)
      some (.num (if neg then -value else value))

/-! ## Lexer (`src/shared/iter.ts` and `src/ntr/lexer.ts`) -/

/-- A numbered source line (`SourceLine` in `iter.ts`). -/
structure SourceLine where
  lineNumber : ℕ
  content : Str
deriving DecidableEq

/-- `source.replace(/\r\n/g, "\n")`. -/
def replaceCRLF : Str → Str
  | '\r' :: '\n' :: rest => '\n' :: replaceCRLF rest
  | c :: rest => c :: replaceCRLF rest
  | [] => []

/-- `enumerateLines`: normalize line endings, split on `\n`, number from 1. -/
def enumerateLines (source : Str) : List SourceLine :=
  (jsSplit '\n' (replaceCRLF source)).enum.map
    (fun p => { lineNumber := p.1 + 1, content := p.2 })

/-- `stripInlineComment`: drop the first `!` and everything after it
(`line.indexOf("!")` / `line.slice(0, commentIndex)`, which is exactly the
longest `!`-free prefix). -/
def stripInlineComment (line : Str) : Str := line.takeWhile (· ≠ '!')

/-- A tokenized line (`TokenizedLine` in `iter.ts`). -/
structure TokenizedLine where
  lineNumber : ℕ
  content : Str
  tokens : List Str
deriving DecidableEq

/-- State-machine loop of `splitTokens`: whitespace splits tokens except
inside a single- or double-quoted span (the closing quote must match the
opening one); quote characters are kept in the token. -/
def splitTokensGo : Str → Str → Bool → Option Char → List Str
  | [], current, _, _ => if current = [] then [] else [current]
  | c :: rest, current, inQuote, quoteChar =>
    if (c = '\'' || c = '"') && (quoteChar = none || quoteChar = some c) then
      if inQuote then splitTokensGo rest (current ++ [c]) false none
      else splitTokensGo rest (current ++ [c]) true (some c)
    else if isWs c && !inQuote then
      if current = [] then splitTokensGo rest [] inQuote quoteChar
      else current :: splitTokensGo rest [] inQuote quoteChar
    else splitTokensGo rest (current ++ [c]) inQuote quoteChar

/-- `splitTokens` from `iter.ts`. -/
def splitTokens (line : Str) : List Str := splitTokensGo line [] false none

/-- `tokenize` from `iter.ts`: strip the inline comment, trim, skip empty
lines, split into tokens, skip token-less lines. -/
def tokenize (lines : List SourceLine) : List TokenizedLine :=
  lines.filterMap (fun line =>
    let withoutComment := stripInlineComment line.content
    let trimmed := jsTrim withoutComment
    if trimmed = [] then none
    else
      let tokens := splitTokens trimmed
      if tokens = [] then none
      else some { lineNumber := line.lineNumber, content := line.content, tokens })

/-- Issue severity (`IssueSeverity` in `model.ts`). -/
inductive Severity where
  | error
  | warning
deriving DecidableEq

/-- A parse issue (`ParseIssue` in `model.ts`; the optional `details` payload
is never set by the embedded pipeline and is omitted). -/
structure ParseIssue where
  severity : Severity
  message : Str
  recordCode : Str
  lineNumber : ℕ
deriving DecidableEq

/-- A raw key/value field (`RawField` in `lexer.ts`). -/
structure RawField where
  key : Str
  value : Str
  rawValue : Str
  quoted : Bool
  lineNumber : ℕ
deriving DecidableEq

/-- A raw record: one non-comment source line (`RawRecord` in `lexer.ts`). -/
structure RawRecord where
  code : Str
  lineNumber : ℕ
  raw : Str
  fields : List RawField
deriving DecidableEq

/-- `normalizeValue` from `lexer.ts`: trim; an empty value is unquoted; a
value wrapped in matching single or double quotes is stripped and flagged
`quoted`. -/
def normalizeValue (value : Str) : Str × Bool :=
  let trimmed := jsTrim value
  match trimmed with
  | [] => ([], false)
  | c :: rest =>
    let lastChar := (c :: rest).getLast (by simp)
    if (c = '\'' && lastChar = '\'') || (c = '"' && lastChar = '"') then
      (((c :: rest).drop 1).dropLast, true)
    else (trimmed, false)

/-- `parseField` from `lexer.ts`: split a token at its first `=`; a token
with no `=` or an empty key yields one error issue instead of a field. -/
def parseField (token : Str) (recordCode : Str) (lineNumber : ℕ) :
    Except ParseIssue RawField :=
  match token.findIdx? (· = '=') with
  | none =>
    .error { severity := .error
             message := str "Expected key=value pair, received \"" ++ token ++ str "\""
             recordCode := recordCode, lineNumber := lineNumber }
  | some equalsIndex =>
    let key := jsTrim (token.take equalsIndex)
    let rawValue := token.drop (equalsIndex + 1)
    if key = [] then
      .error { severity := .error, message := str "Missing field key"
               recordCode := recordCode, lineNumber := lineNumber }
    else
      let nv := normalizeValue rawValue
      .ok { key := jsToUpper key, value := nv.1, rawValue := jsTrim rawValue
            quoted := nv.2, lineNumber := lineNumber }

/-- Result of lexing (`LexResult` in `lexer.ts`). -/
structure LexResult where
  records : List RawRecord
  issues : List ParseIssue
deriving DecidableEq

/-- One iteration of the `lexNtr` loop: the record produced by a tokenized
line (none for a comment line) and the issues from its field tokens. -/
def lexLine (line : TokenizedLine) : Option RawRecord × List ParseIssue :=
  match line.tokens with
  | [] => (none, [])
  | codeToken :: rest =>
    let recordCode := jsToUpper (jsTrim codeToken)
    if recordCode = str "C" then (none, [])
    else
      let fields := rest.filterMap (fun t => (parseField t recordCode line.lineNumber).toOption)
      let issues := rest.filterMap (fun t =>
        match parseField t recordCode line.lineNumber with
        | .error e => some e
        | .ok _ => none)
      (some { code := recordCode, lineNumber := line.lineNumber
              raw := line.content, fields }, issues)

/-- `lexNtr` from `lexer.ts`: tokenize every line, drop comment lines, build
records and accumulate per-token issues in order. -/
def lexNtr (source : Str) : LexResult :=
  let tokenized := tokenize (enumerateLines source)
  { records := tokenized.filterMap (fun l => (lexLine l).1)
    issues := (tokenized.map (fun l => (lexLine l).2)).flatten }

/-! ## Domain types (`src/ntr/types.ts` and `src/ntr/model.ts`) -/

/-- A 3-component vector (`Vector3` in `types.ts`), generic in the number
type: the parser produces `V3 JSNum`, the bend geometry lives in `V3 ℝ`. -/
structure V3 (α : Type) where
  x : α
  y : α
  z : α
deriving DecidableEq

/-- A point reference (`PointReference` in `types.ts`): an explicit
coordinate or a reference to a named node. -/
inductive PointRef where
  | coordinate (position : V3 JSNum)
  | named (id : Str)
deriving DecidableEq

/-- `asIdentifier` and every branded `as*Code` helper in `types.ts` trim
their input. -/
def asIdentifier (value : Str) : Str := jsTrim value

/-- `asNominalDiameterCode` from `types.ts`: trims (and does nothing else). -/
def asNominalDiameterCode (value : Str) : Str := jsTrim value

/-- `asLoadCaseCode` from `types.ts`. -/
def asLoadCaseCode (value : Str) : Str := jsTrim value

/-- `asString` from `types.ts`. -/
def asString (value : Str) : Str := jsTrim value

/-- `createCoordinatePoint` from `types.ts`. -/
def createCoordinatePoint (position : V3 JSNum) : PointRef := .coordinate position

/-- `createNamedPoint` from `types.ts` (`asNodeId` trims the id). -/
def createNamedPoint (id : Str) : PointRef := .named (jsTrim id)

/-- Profile axis (`AxisCode` in `types.ts`). -/
inductive AxisCode where
  | Y
  | Z
deriving DecidableEq

/-- The attributes shared by all element kinds (`ElementBase` in
`model.ts`). -/
structure ElementBase where
  material : Option Str := none
  loadCases : List Str := []
  description : Option Str := none
  reference : Option Str := none
  pipeline : Option Str := none
  componentTag : Option Str := none
  norm : Option Str := none
  series : Option Str := none
  schedule : Option Str := none
  rawFields : List (Str × Str) := []
deriving DecidableEq

/-- The closed element union (`Element` in `model.ts`): `pend` stands for
the source's `end` field (a Lean keyword). -/
inductive Element where
  | ro (base : ElementBase) (start pend : PointRef) (nominalDiameter : Str)
  | bog (base : ElementBase) (start pend tangent : PointRef) (nominalDiameter : Str)
  | tee (base : ElementBase) (mainStart mainEnd branchStart branchEnd : PointRef)
      (mainNominalDiameter branchNominalDiameter : Str) (teeType : Option Str)
  | arm (base : ElementBase) (start pend center : PointRef)
      (inletDiameter outletDiameter : Str) (weight : Option JSNum)
  | prof (base : ElementBase) (start pend : PointRef) (profileType : Str)
      (axis : Option AxisCode) (axisDirection : Option PointRef)
  | red (base : ElementBase) (start pend : PointRef)
      (inletDiameter outletDiameter : Str)
deriving DecidableEq

/-- A nominal-diameter definition (`NominalDiameterDefinition` in
`model.ts`). -/
structure NominalDiameterDefinition where
  outsideDiameter : JSNum
  thickness : Option JSNum
deriving DecidableEq

/-- Document metadata (`NtrMetadata` in `model.ts`). -/
structure NtrMetadata where
  projectName : Option Str := none
  specification : Option Str := none
deriving DecidableEq

/-- The complete document (`NtrFile` in `model.ts`); the nominal-diameter
record object is modelled as an insertion-ordered association list (the
JavaScript object/`Map` key order). -/
structure NtrFile where
  id : Str
  metadata : NtrMetadata
  nominalDiameters : List (Str × NominalDiameterDefinition)
  elements : List Element
  issues : List ParseIssue
deriving DecidableEq

/-! ## Association-list model of JavaScript `Map` / object keying -/

/-- `Map.prototype.set` / object property assignment: update in place if the
key exists (keeping its insertion position), otherwise append. -/
def mapSet {β : Type} (m : List (Str × β)) (k : Str) (v : β) : List (Str × β) :=
  if m.any (fun p => p.1 = k) then m.map (fun p => if p.1 = k then (k, v) else p)
  else m ++ [(k, v)]

/-- `Map.prototype.get`. -/
def mapGet {β : Type} (m : List (Str × β)) (k : Str) : Option β :=
  (m.find? (fun p => p.1 = k)).map (·.2)

/-- `Map.prototype.has`. -/
def mapHas {β : Type} (m : List (Str × β)) (k : Str) : Bool :=
  m.any (fun p => p.1 = k)

/-! ## Record interpreter (`src/ntr/parser.ts`) -/

/-- `createIssue` from `parser.ts` (severity defaults to `error`). -/
def createIssue (code : Str) (lineNumber : ℕ) (message : Str)
    (severity : Severity := .error) : ParseIssue :=
  { severity, message, recordCode := code, lineNumber }

/-- `createFieldMap`: later fields with the same key overwrite earlier
ones (JavaScript `Map.set`). -/
def createFieldMap (record : RawRecord) : List (Str × RawField) :=
  record.fields.foldl (fun m f => mapSet m f.key f) []

/-- `snapshotRawFields`: the raw string of every field, keyed like the
field map. -/
def snapshotRawFields (map : List (Str × RawField)) : List (Str × Str) :=
  map.map (fun p => (p.1, p.2.rawValue))

/-- `requireField`: a missing mandatory key yields one error issue naming
the field and carrying the record code. -/
def requireField (record : RawRecord) (map : List (Str × RawField)) (key : Str) :
    Except ParseIssue RawField :=
  match mapGet map key with
  | none =>
    .error (createIssue record.code record.lineNumber
      (str "Missing required field \"" ++ key ++ str "\""))
  | some field => .ok field

/-- `parseNumericValue`: `Number.parseFloat`, `NaN` is an error issue. -/
def parseNumericValue (record : RawRecord) (key : Str) (field : RawField) :
    Except ParseIssue JSNum :=
  match parseFloat field.value with
  | none =>
    .error (createIssue record.code field.lineNumber
      (str "Invalid numeric value \"" ++ field.value ++ str "\" for field \"" ++ key ++ str "\""))
  | some numeric => .ok numeric

/-- `requireNumericField`. -/
def requireNumericField (record : RawRecord) (map : List (Str × RawField)) (key : Str) :
    Except ParseIssue JSNum :=
  match requireField record map key with
  | .error e => .error e
  | .ok field => parseNumericValue record key field

/-- `optionalNumericField`. -/
def optionalNumericField (record : RawRecord) (map : List (Str × RawField)) (key : Str) :
    Except ParseIssue (Option JSNum) :=
  match mapGet map key with
  | none => .ok none
  | some field => (parseNumericValue record key field).map some

/-- `parseCoordinate`: exactly three comma-separated parts, each accepted by
`parseFloat` (`Number.isNaN` is the only check: an infinite component is
accepted). -/
def parseCoordinate (value : Str) : Option (V3 JSNum) :=
  let parts := (jsSplit ',' value).map jsTrim
  match parts with
  | [a, b, c] =>
    match parseFloat a, parseFloat b, parseFloat c with
    | some x, some y, some z => some ⟨x, y, z⟩
    | _, _, _ => none
  | _ => none

/-- `parsePointField`: a quoted value must be a coordinate triple; an
unquoted non-empty value is a named-node reference; an empty unquoted value
is an error. -/
def parsePointField (record : RawRecord) (key : Str) (field : RawField) :
    Except ParseIssue PointRef :=
  if field.quoted then
    match parseCoordinate field.value with
    | none =>
      .error (createIssue record.code field.lineNumber
        (str "Invalid coordinate for field \"" ++ key ++ str "\""))
    | some coordinates => .ok (createCoordinatePoint coordinates)
  else if jsTrim field.value = [] then
    .error (createIssue record.code field.lineNumber
      (str "Missing coordinate value for \"" ++ key ++ str "\""))
  else .ok (createNamedPoint field.value)

/-- `requirePoint`. -/
def requirePoint (record : RawRecord) (map : List (Str × RawField)) (key : Str) :
    Except ParseIssue PointRef :=
  match requireField record map key with
  | .error e => .error e
  | .ok field => parsePointField record key field

/-- `optionalPoint`. -/
def optionalPoint (record : RawRecord) (map : List (Str × RawField)) (key : Str) :
    Except ParseIssue (Option PointRef) :=
  match mapGet map key with
  | none => .ok none
  | some field => (parsePointField record key field).map some

/-- `parseLoadCases`: comma-split, trim, drop empties; an absent field is an
empty list. -/
def parseLoadCases (field : Option RawField) : List Str :=
  match field with
  | none => []
  | some f => (((jsSplit ',' f.value).map jsTrim).filter (fun e => e ≠ [])).map asLoadCaseCode

/-- `parseWeight`: optional `GEW`; present but unparsable is an error. -/
def parseWeight (record : RawRecord) (field : Option RawField) :
    Except ParseIssue (Option JSNum) :=
  match field with
  | none => .ok none
  | some f =>
    match parseFloat f.value with
    | none =>
      .error (createIssue record.code f.lineNumber
        (str "Invalid weight value \"" ++ f.value ++ str "\""))
    | some numeric => .ok (some numeric)

/-- `optionalAxis`: `ACHSE` accepts only `Y` or `Z`, case-insensitively. -/
def optionalAxis (record : RawRecord) (field : Option RawField) :
    Except ParseIssue (Option AxisCode) :=
  match field with
  | none => .ok none
  | some f =>
    let value := jsToUpper (jsTrim f.value)
    if value = str "Y" then .ok (some .Y)
    else if value = str "Z" then .ok (some .Z)
    else
      .error (createIssue record.code f.lineNumber
        (str "Invalid ACHSE value \"" ++ f.value ++ str "\" (expected Y or Z)"))

/-- `optionalMapped` with a trimming brand constructor (every `as*Code`
mapper in the source trims). -/
def optionalMapped (map : List (Str × RawField)) (key : Str) : Option Str :=
  (mapGet map key).map (fun f => jsTrim f.value)

/-- `optionalString` (`asString` trims). -/
def optionalString (map : List (Str × RawField)) (key : Str) : Option Str :=
  (mapGet map key).map (fun f => asString f.value)

/-- The shared attribute set read by every element constructor. -/
def parseBase (map : List (Str × RawField)) : ElementBase :=
  { material := optionalMapped map (str "MAT")
    loadCases := parseLoadCases (mapGet map (str "LAST"))
    description := optionalString map (str "TEXT")
    reference := optionalMapped map (str "REF")
    pipeline := optionalMapped map (str "LTG")
    componentTag := optionalMapped map (str "BTK")
    norm := optionalMapped map (str "NORM")
    series := optionalMapped map (str "SERIES")
    schedule := optionalMapped map (str "SCHED")
    rawFields := [] }

/-- `parseStraightPipe` (`RO`). -/
def parseStraightPipe (record : RawRecord) : Except ParseIssue Element :=
  let map := createFieldMap record
  let rawFields := snapshotRawFields map
  match requirePoint record map (str "P1") with
  | .error e => .error e
  | .ok start =>
  match requirePoint record map (str "P2") with
  | .error e => .error e
  | .ok pend =>
  match requireField record map (str "DN") with
  | .error e => .error e
  | .ok dn =>
    .ok (.ro { parseBase map with rawFields } start pend
      (asNominalDiameterCode dn.value))

/-- `parseBend` (`BOG`). -/
def parseBend (record : RawRecord) : Except ParseIssue Element :=
  let map := createFieldMap record
  let rawFields := snapshotRawFields map
  match requirePoint record map (str "P1") with
  | .error e => .error e
  | .ok start =>
  match requirePoint record map (str "P2") with
  | .error e => .error e
  | .ok pend =>
  match requirePoint record map (str "PT") with
  | .error e => .error e
  | .ok tangent =>
  match requireField record map (str "DN") with
  | .error e => .error e
  | .ok dn =>
    .ok (.bog { parseBase map with rawFields } start pend tangent
      (asNominalDiameterCode dn.value))

/-- `parseTee` (`TEE`). -/
def parseTee (record : RawRecord) : Except ParseIssue Element :=
  let map := createFieldMap record
  let rawFields := snapshotRawFields map
  match requirePoint record map (str "PH1") with
  | .error e => .error e
  | .ok mainStart =>
  match requirePoint record map (str "PH2") with
  | .error e => .error e
  | .ok mainEnd =>
  match requirePoint record map (str "PA1") with
  | .error e => .error e
  | .ok branchStart =>
  match requirePoint record map (str "PA2") with
  | .error e => .error e
  | .ok branchEnd =>
  match requireField record map (str "DNH") with
  | .error e => .error e
  | .ok mainDn =>
  match requireField record map (str "DNA") with
  | .error e => .error e
  | .ok branchDn =>
    .ok (.tee { parseBase map with rawFields } mainStart mainEnd branchStart branchEnd
      (asNominalDiameterCode mainDn.value) (asNominalDiameterCode branchDn.value)
      (optionalString map (str "TYP")))

/-- `parseArm` (`ARM`); note `ARM` does not read `NORM`/`SERIES`/`SCHED`. -/
def parseArm (record : RawRecord) : Except ParseIssue Element :=
  let map := createFieldMap record
  let rawFields := snapshotRawFields map
  match requirePoint record map (str "P1") with
  | .error e => .error e
  | .ok start =>
  match requirePoint record map (str "P2") with
  | .error e => .error e
  | .ok pend =>
  match requirePoint record map (str "PM") with
  | .error e => .error e
  | .ok center =>
  match requireField record map (str "DN1") with
  | .error e => .error e
  | .ok dn1 =>
  match requireField record map (str "DN2") with
  | .error e => .error e
  | .ok dn2 =>
  match parseWeight record (mapGet map (str "GEW")) with
  | .error e => .error e
  | .ok weight =>
    .ok (.arm { parseBase map with
                norm := none
                series := none
                schedule := none
                rawFields := rawFields } start pend center
      (asNominalDiameterCode dn1.value) (asNominalDiameterCode dn2.value) weight)

/-- `parseProfile` (`PROF`); `PROF` reads `NORM` but not `SERIES`/`SCHED`. -/
def parseProfile (record : RawRecord) : Except ParseIssue Element :=
  let map := createFieldMap record
  let rawFields := snapshotRawFields map
  match requirePoint record map (str "P1") with
  | .error e => .error e
  | .ok start =>
  match requirePoint record map (str "P2") with
  | .error e => .error e
  | .ok pend =>
  match requireField record map (str "TYP") with
  | .error e => .error e
  | .ok typ =>
  match optionalAxis record (mapGet map (str "ACHSE")) with
  | .error e => .error e
  | .ok axis =>
  match optionalPoint record map (str "RI") with
  | .error e => .error e
  | .ok axisDirection =>
    .ok (.prof { parseBase map with series := none, schedule := none, rawFields }
      start pend (jsTrim typ.value) axis axisDirection)

/-- `parseReducer` (`RED`). -/
def parseReducer (record : RawRecord) : Except ParseIssue Element :=
  let map := createFieldMap record
  let rawFields := snapshotRawFields map
  match requirePoint record map (str "P1") with
  | .error e => .error e
  | .ok start =>
  match requirePoint record map (str "P2") with
  | .error e => .error e
  | .ok pend =>
  match requireField record map (str "DN1") with
  | .error e => .error e
  | .ok dn1 =>
  match requireField record map (str "DN2") with
  | .error e => .error e
  | .ok dn2 =>
    .ok (.red { parseBase map with rawFields } start pend
      (asNominalDiameterCode dn1.value) (asNominalDiameterCode dn2.value))

/-- A parsed `DN` record (`NominalDiameterEntry` in `parser.ts`). -/
structure NominalDiameterEntry where
  code : Str
  definition : NominalDiameterDefinition
deriving DecidableEq

/-- `parseNominalDiameterRecord`: `NAME` and `DA` are required, `S` is
optional. -/
def parseNominalDiameterRecord (record : RawRecord) :
    Except ParseIssue NominalDiameterEntry :=
  let map := createFieldMap record
  match requireField record map (str "NAME") with
  | .error e => .error e
  | .ok nameField =>
  match requireNumericField record map (str "DA") with
  | .error e => .error e
  | .ok outerDiameter =>
  match optionalNumericField record map (str "S") with
  | .error e => .error e
  | .ok thickness =>
    .ok { code := asNominalDiameterCode nameField.value
          definition := { outsideDiameter := outerDiameter, thickness } }

/-- `parseElementRecord`: dispatch on the record code. -/
def parseElementRecord (record : RawRecord) : Except ParseIssue Element :=
  if record.code = str "RO" then parseStraightPipe record
  else if record.code = str "BOG" then parseBend record
  else if record.code = str "TEE" then parseTee record
  else if record.code = str "ARM" then parseArm record
  else if record.code = str "PROF" then parseProfile record
  else if record.code = str "RED" then parseReducer record
  else
    .error (createIssue record.code record.lineNumber
      (str "Unsupported record code \"" ++ record.code ++ str "\"") .warning)

/-- The accumulating state of the `parseNtr` loop. -/
structure InterpState where
  elements : List Element
  issues : List ParseIssue
  nominalDiameters : List (Str × NominalDiameterDefinition)
deriving DecidableEq

/-- One iteration of the `parseNtr` record loop. -/
def interpretStep (st : InterpState) (record : RawRecord) : InterpState :=
  if record.code = str "RO" || record.code = str "BOG" || record.code = str "TEE" ||
      record.code = str "ARM" || record.code = str "PROF" || record.code = str "RED" then
    match parseElementRecord record with
    | .ok element => { st with elements := st.elements ++ [element] }
    | .error issue => { st with issues := st.issues ++ [issue] }
  else if record.code = str "DN" then
    match parseNominalDiameterRecord record with
    | .ok entry =>
      if mapHas st.nominalDiameters entry.code then
        { st with issues := st.issues ++
            [createIssue record.code record.lineNumber
              (str "Duplicate DN definition for \"" ++ entry.code ++ str "\" ignored")
              .warning] }
      else
        { st with nominalDiameters := mapSet st.nominalDiameters entry.code entry.definition }
    | .error issue => { st with issues := st.issues ++ [issue] }
  else if record.code = str "GEN" || record.code = str "AUFT" || record.code = str "TEXT" ||
      record.code = str "LAST" || record.code = str "IS" then
    -- Known non-geometric records: intentionally ignored, no issue.
    st
  else
    { st with issues := st.issues ++
        [createIssue record.code record.lineNumber
          (str "Unsupported record code \"" ++ record.code ++ str "\"") .warning] }

/-- The whole `parseNtr` record loop. -/
def interpretRecords (init : InterpState) (records : List RawRecord) : InterpState :=
  records.foldl interpretStep init

/-! ## Document validator (`src/ntr/validation.ts`)

The zod schema chain is embedded as a partial normalization function on the
document shape: every `z.string().trim().min(1)` becomes `checkTrimMin1`
(`none` = schema rejection), every `z.number().finite()` becomes a
finiteness check on `JSNum`, and every `transform` is applied as in the
source (the branded `as*` constructors re-trim already-trimmed strings). -/

/-- `z.string().trim().min(1)`: trim first, then require non-empty. -/
def checkTrimMin1 (s : Str) : Option Str :=
  let t := jsTrim s
  if t = [] then none else some t

/-- An optional trimmed non-empty string (`.optional()` on the schema). -/
def validateOptStr : Option Str → Option (Option Str)
  | none => some none
  | some s => (checkTrimMin1 s).map some

/-- `z.number().finite()` on a non-`NaN` JavaScript number. -/
def validateFiniteNum (n : JSNum) : Option JSNum :=
  if n.isFinite then some n else none

/-- `kilogrameSchema`: finite and non-negative. -/
def validateWeight (n : JSNum) : Option JSNum :=
  match n with
  | .num q => if 0 ≤ q then some (.num q) else none
  | _ => none

/-- `pointReferenceSchema`: a coordinate needs three finite components; a
named point needs a non-empty id, re-trimmed by `createNamedPoint`. -/
def validatePoint : PointRef → Option PointRef
  | .coordinate v =>
    if v.x.isFinite && v.y.isFinite && v.z.isFinite then some (.coordinate v) else none
  | .named id => (checkTrimMin1 id).map (fun t => createNamedPoint t)

/-- Validate an optional point (`.optional()`). -/
def validateOptPoint : Option PointRef → Option (Option PointRef)
  | none => some none
  | some p => (validatePoint p).map some

/-- Effectful element-wise traversal in the `Option` monad. -/
def traverseOpt {α : Type} (f : α → Option α) : List α → Option (List α)
  | [] => some []
  | x :: xs =>
    match f x, traverseOpt f xs with
    | some y, some ys => some (y :: ys)
    | _, _ => none

/-- `elementBaseSchema` on the shared attributes (`rawFields` is a plain
string record, not transformed). -/
def validateBase (b : ElementBase) : Option ElementBase :=
  match validateOptStr b.material, traverseOpt checkTrimMin1 b.loadCases,
      validateOptStr b.description, validateOptStr b.reference,
      validateOptStr b.pipeline, validateOptStr b.componentTag,
      validateOptStr b.norm, validateOptStr b.series, validateOptStr b.schedule with
  | some material, some loadCases, some description, some reference,
      some pipeline, some componentTag, some norm, some series, some schedule =>
    some { material, loadCases, description, reference, pipeline, componentTag
           norm := norm, series := series, schedule := schedule
           rawFields := b.rawFields }
  | _, _, _, _, _, _, _, _, _ => none

/-- Validate the optional weight field. -/
def validateOptWeight : Option JSNum → Option (Option JSNum)
  | none => some none
  | some w => (validateWeight w).map some

/-- `elementSchema`: the discriminated union of the six kind schemas. -/
def validateElement : Element → Option Element
  | .ro base start pend dn =>
    match validateBase base, validatePoint start, validatePoint pend, checkTrimMin1 dn with
    | some base', some start', some pend', some dn' => some (.ro base' start' pend' dn')
    | _, _, _, _ => none
  | .bog base start pend tangent dn =>
    match validateBase base, validatePoint start, validatePoint pend,
        validatePoint tangent, checkTrimMin1 dn with
    | some base', some start', some pend', some tangent', some dn' =>
      some (.bog base' start' pend' tangent' dn')
    | _, _, _, _, _ => none
  | .tee base ms me bs be dnh dna teeType =>
    match validateBase base, validatePoint ms, validatePoint me, validatePoint bs,
        validatePoint be, checkTrimMin1 dnh, checkTrimMin1 dna, validateOptStr teeType with
    | some base', some ms', some me', some bs', some be', some dnh', some dna', some tt' =>
      some (.tee base' ms' me' bs' be' dnh' dna' tt')
    | _, _, _, _, _, _, _, _ => none
  | .arm base start pend center dn1 dn2 weight =>
    match validateBase base, validatePoint start, validatePoint pend, validatePoint center,
        checkTrimMin1 dn1, checkTrimMin1 dn2, validateOptWeight weight with
    | some base', some start', some pend', some center', some dn1', some dn2', some w' =>
      some (.arm base' start' pend' center' dn1' dn2' w')
    | _, _, _, _, _, _, _ => none
  | .prof base start pend profileType axis axisDirection =>
    match validateBase base, validatePoint start, validatePoint pend,
        checkTrimMin1 profileType, validateOptPoint axisDirection with
    | some base', some start', some pend', some typ', some dir' =>
      some (.prof base' start' pend' typ' axis dir')
    | _, _, _, _, _ => none
  | .red base start pend dn1 dn2 =>
    match validateBase base, validatePoint start, validatePoint pend,
        checkTrimMin1 dn1, checkTrimMin1 dn2 with
    | some base', some start', some pend', some dn1', some dn2' =>
      some (.red base' start' pend' dn1' dn2')
    | _, _, _, _, _ => none

/-- `nominalDiameterDefinitionSchema`. -/
def validateDnDef (d : NominalDiameterDefinition) : Option NominalDiameterDefinition :=
  match validateFiniteNum d.outsideDiameter, d.thickness with
  | some od, none => some { outsideDiameter := od, thickness := none }
  | some od, some t =>
    (validateFiniteNum t).map (fun t' => { outsideDiameter := od, thickness := some t' })
  | none, _ => none

/-- `definitionsSchema`: validate every definition, then rebuild the record
with `asNominalDiameterCode`-trimmed keys (later keys overwrite). -/
def validateDefinitions (l : List (Str × NominalDiameterDefinition)) :
    Option (List (Str × NominalDiameterDefinition)) :=
  (traverseOpt (fun p => (validateDnDef p.2).map (fun d => (p.1, d))) l).map
    (fun vals => vals.foldl (fun m p => mapSet m (asNominalDiameterCode p.1) p.2) [])

/-- `parseIssueSchema`: message and record code are trimmed non-empty, the
line number is a positive integer. -/
def validateIssue (i : ParseIssue) : Option ParseIssue :=
  match checkTrimMin1 i.message, checkTrimMin1 i.recordCode with
  | some message, some recordCode =>
    if 1 ≤ i.lineNumber then
      some { severity := i.severity, message, recordCode, lineNumber := i.lineNumber }
    else none
  | _, _ => none

/-- `metadataSchema`. -/
def validateMetadata (m : NtrMetadata) : Option NtrMetadata :=
  match validateOptStr m.projectName, validateOptStr m.specification with
  | some projectName, some specification => some { projectName, specification }
  | _, _ => none

/-- `validateNtrFile` / `ntrFileSchema`: the whole-document structural gate;
`none` models the zod failure result. -/
def validateNtrFile (f : NtrFile) : Option NtrFile :=
  match checkTrimMin1 f.id, validateMetadata f.metadata,
      validateDefinitions f.nominalDiameters,
      traverseOpt validateElement f.elements, traverseOpt validateIssue f.issues with
  | some id', some metadata, some nominalDiameters, some elements, some issues =>
    -- identifierSchema's transform `asIdentifier` re-trims the id
    some { id := asIdentifier id', metadata, nominalDiameters, elements, issues }
  | _, _, _, _, _ => none

deriving instance DecidableEq for Except

/-- The success value of `parseNtr` (`ParseResult` in `parser.ts`). -/
structure ParseResult where
  file : NtrFile
  issues : List ParseIssue
deriving DecidableEq

/-- `parseNtr`: lex, interpret every record, reject the whole parse if any
collected issue has error severity, then validate the assembled document
(the real code maps each zod issue to a `VALIDATION` issue with line 0; the
embedding keeps a single summary issue for that unreached corner). -/
def parseNtr (id : Str) (source : Str) : Except (List ParseIssue) ParseResult :=
  let lexed := lexNtr source
  let st := interpretRecords { elements := [], issues := lexed.issues, nominalDiameters := [] }
    lexed.records
  if st.issues.any (fun i => i.severity == Severity.error) then .error st.issues
  else
    match validateNtrFile { id, metadata := {}, nominalDiameters := st.nominalDiameters
                            elements := st.elements, issues := st.issues } with
    | some file => .ok { file, issues := st.issues }
    | none =>
      .error (st.issues ++ [createIssue (str "VALIDATION") 0 (str "Document validation failed")])

/-! ## Geometry deriver (`src/viewer/sceneGraph.ts`) -/

/-- The fixed axis permutation into scene space (`transformVector`): swap Y
and Z. -/
def transformVector (position : V3 JSNum) : V3 JSNum :=
  { x := position.x, y := position.z, z := position.y }

/-- An axis-aligned bounding box (`BoundingBox`). -/
structure BoundingBox where
  min : V3 JSNum
  max : V3 JSNum
deriving DecidableEq

/-- A resolved scene point (`ResolvedPoint`): a coordinate with its scene
position, or an unresolved named-node reference. -/
inductive ResolvedPoint where
  | coordinate (position scenePosition : V3 JSNum)
  | unresolved (reference : Str)
deriving DecidableEq

/-- The bounds builder's `add` (`createBoundsBuilder`): the first point
seeds min = max = p, later points fold in componentwise via
`Math.min`/`Math.max`; the builder's `value()` is the `Option` itself. -/
def boundsAdd (b : Option BoundingBox) (position : V3 JSNum) : Option BoundingBox :=
  match b with
  | none => some { min := position, max := position }
  | some bb =>
    some { min := { x := jsMin bb.min.x position.x, y := jsMin bb.min.y position.y
                    z := jsMin bb.min.z position.z }
           max := { x := jsMax bb.max.x position.x, y := jsMax bb.max.y position.y
                    z := jsMax bb.max.z position.z } }

/-- `resolvePoint`: a coordinate is transformed into scene space and folded
into the bounds; a named node becomes `unresolved` and contributes
nothing. -/
def resolvePoint (point : PointRef) (b : Option BoundingBox) :
    ResolvedPoint × Option BoundingBox :=
  match point with
  | .coordinate position =>
    let scenePosition := transformVector position
    (.coordinate position scenePosition, boundsAdd b scenePosition)
  | .named id => (.unresolved id, b)

/-- A derived scene element.  The pass-through attributes (`material`,
`loadCases`, ... of `baseProps`) are carried by the `source` element; the
embedding keeps the geometric fields and diameter lookups explicitly. -/
inductive SceneElement where
  | ro (id : Str) (start pend : ResolvedPoint) (nominalDiameter : Str)
      (outerDiameter : Option JSNum) (source : Element)
  | prof (id : Str) (start pend : ResolvedPoint) (profileType : Str)
      (axis : Option AxisCode) (axisDirection : Option ResolvedPoint) (source : Element)
  | bog (id : Str) (start pend tangent : ResolvedPoint) (nominalDiameter : Str)
      (outerDiameter : Option JSNum) (source : Element)
  | tee (id : Str) (mainStart mainEnd branchStart branchEnd : ResolvedPoint)
      (mainNominalDiameter branchNominalDiameter : Str)
      (mainOuterDiameter branchOuterDiameter : Option JSNum)
      (teeType : Option Str) (source : Element)
  | arm (id : Str) (start pend center : ResolvedPoint)
      (inletDiameter outletDiameter : Str)
      (inletOuterDiameter outletOuterDiameter : Option JSNum)
      (weight : Option JSNum) (source : Element)
  | red (id : Str) (start pend : ResolvedPoint)
      (inletDiameter outletDiameter : Str)
      (inletOuterDiameter outletOuterDiameter : Option JSNum) (source : Element)
deriving DecidableEq

/-- `lookupOuterDiameter`. -/
def lookupOuterDiameter (lookup : List (Str × NominalDiameterDefinition)) (code : Str) :
    Option JSNum :=
  (mapGet lookup code).map (·.outsideDiameter)

/-- `convertElement`: resolve every point of the element in source order,
threading the bounds builder state, and attach the diameter lookups. -/
def convertElement (element : Element) (id : Str) (b : Option BoundingBox)
    (lookup : List (Str × NominalDiameterDefinition)) :
    SceneElement × Option BoundingBox :=
  match element with
  | .ro _ start pend dn =>
    let (s, b1) := resolvePoint start b
    let (e, b2) := resolvePoint pend b1
    (.ro id s e dn (lookupOuterDiameter lookup dn) element, b2)
  | .prof _ start pend typ axis axisDirection =>
    let (s, b1) := resolvePoint start b
    let (e, b2) := resolvePoint pend b1
    match axisDirection with
    | none => (.prof id s e typ axis none element, b2)
    | some dir =>
      let (d, b3) := resolvePoint dir b2
      (.prof id s e typ axis (some d) element, b3)
  | .bog _ start pend tangent dn =>
    let (s, b1) := resolvePoint start b
    let (e, b2) := resolvePoint pend b1
    let (t, b3) := resolvePoint tangent b2
    (.bog id s e t dn (lookupOuterDiameter lookup dn) element, b3)
  | .tee _ ms me bs be dnh dna teeType =>
    let (ms', b1) := resolvePoint ms b
    let (me', b2) := resolvePoint me b1
    let (bs', b3) := resolvePoint bs b2
    let (be', b4) := resolvePoint be b3
    (.tee id ms' me' bs' be' dnh dna
      (lookupOuterDiameter lookup dnh) (lookupOuterDiameter lookup dna) teeType element, b4)
  | .arm _ start pend center dn1 dn2 weight =>
    let (s, b1) := resolvePoint start b
    let (e, b2) := resolvePoint pend b1
    let (c, b3) := resolvePoint center b2
    (.arm id s e c dn1 dn2
      (lookupOuterDiameter lookup dn1) (lookupOuterDiameter lookup dn2) weight element, b3)
  | .red _ start pend dn1 dn2 =>
    let (s, b1) := resolvePoint start b
    let (e, b2) := resolvePoint pend b1
    (.red id s e dn1 dn2
      (lookupOuterDiameter lookup dn1) (lookupOuterDiameter lookup dn2) element, b2)

/-- The scene id of the element at a given index (`element-${index}`). -/
def elementId (i : ℕ) : Str := str "element-" ++ Nat.toDigits 10 i

/-- The derived scene graph (`SceneGraph`). -/
structure SceneGraph where
  elements : List SceneElement
  bounds : Option BoundingBox
deriving DecidableEq

/-- The `file.elements.map(convertElement ...)` loop of `buildSceneGraph`,
with the mutable bounds builder made explicit. -/
def buildSceneGraphGo (lookup : List (Str × NominalDiameterDefinition)) :
    List Element → ℕ → Option BoundingBox → List SceneElement × Option BoundingBox
  | [], _, b => ([], b)
  | e :: rest, i, b =>
    let (se, b') := convertElement e (elementId i) b lookup
    let (ses, b'') := buildSceneGraphGo lookup rest (i + 1) b'
    (se :: ses, b'')

/-- `buildSceneGraph`. -/
def buildSceneGraph (file : NtrFile) : SceneGraph :=
  let r := buildSceneGraphGo file.nominalDiameters file.elements 0 none
  { elements := r.1, bounds := r.2 }

/-- The resolved points an element carries, in conversion order (used to
state the bounding-box invariant). -/
def scenePoints : SceneElement → List ResolvedPoint
  | .ro _ s e _ _ _ => [s, e]
  | .prof _ s e _ _ dir _ => [s, e] ++ (match dir with | none => [] | some d => [d])
  | .bog _ s e t _ _ _ => [s, e, t]
  | .tee _ ms me bs be _ _ _ _ _ _ => [ms, me, bs, be]
  | .arm _ s e c _ _ _ _ _ _ => [s, e, c]
  | .red _ s e _ _ _ _ _ => [s, e]

/-- The scene positions of the resolved coordinate points in a point
list (unresolved points contribute nothing). -/
def coordPositions (pts : List ResolvedPoint) : List (V3 JSNum) :=
  pts.filterMap (fun p =>
    match p with
    | .coordinate _ sp => some sp
    | .unresolved _ => none)

/-- Componentwise `≤` on scene vectors. -/
def v3Le (a b : V3 JSNum) : Bool := jsLe a.x b.x && jsLe a.y b.y && jsLe a.z b.z

/-- A bounding box contains a point: `min ≤ p ≤ max` componentwise (an
absent box contains nothing). -/
def boundsContain (b : Option BoundingBox) (p : V3 JSNum) : Bool :=
  match b with
  | none => false
  | some bb => v3Le bb.min p && v3Le p bb.max

/-! ## Bend-arc fitting (`createBendMesh` in
`src/viewer/RevitStylePointerInput.ts`)

The arithmetic of `createBendMesh` is modelled over `ℝ`; its inputs are the
three scene positions of a bend after the `sceneOffset` subtraction (lines
559-577 of the source), and the guard `Number.isFinite(elbowRadius)` is
identically true over `ℝ` (`NaN`/`Infinity` have no real counterpart, which
is the content of the fallback guards).  Each intermediate definition below
names one `const` of the source. -/

/-- Real 3-vectors for the bend geometry. -/
abbrev R3 := V3 ℝ

/-- Vector addition. -/
def vadd (a b : R3) : R3 := ⟨a.x + b.x, a.y + b.y, a.z + b.z⟩

/-- Vector subtraction (`Vector3.subtract`). -/
def vsub (a b : R3) : R3 := ⟨a.x - b.x, a.y - b.y, a.z - b.z⟩

/-- Scalar multiple (`Vector3.scale`). -/
def smul3 (c : ℝ) (a : R3) : R3 := ⟨c * a.x, c * a.y, c * a.z⟩

/-- Dot product (`Vector3.Dot`). -/
def dot (a b : R3) : ℝ := a.x * b.x + a.y * b.y + a.z * b.z

/-- Cross product (`Vector3.Cross`). -/
def cross (a b : R3) : R3 :=
  ⟨a.y * b.z - a.z * b.y, a.z * b.x - a.x * b.z, a.x * b.y - a.y * b.x⟩

/-- `Vector3.lengthSquared`. -/
def lengthSquared (a : R3) : ℝ := a.x * a.x + a.y * a.y + a.z * a.z

/-- `Vector3.length`. -/
noncomputable def length (a : R3) : ℝ := Real.sqrt (lengthSquared a)

/-- `Vector3.normalize` (Babylon scales by `1/length`; a zero vector stays
zero, which `1/0 = 0` reproduces, and a unit vector is unchanged). -/
noncomputable def normalize (a : R3) : R3 := smul3 (1 / length a) a

/-- The guard tolerance `1e-6` used throughout `createBendMesh`. -/
noncomputable def tol : ℝ := 1 / 1000000

/-- `const u = startToTangent.normalize()`. -/
noncomputable def bendU (S T : R3) : R3 := normalize (vsub T S)

/-- `const planeNormal = Cross(startToTangent, endToTangent)` (before its
normalization). -/
noncomputable def bendPlaneNormal (S T E : R3) : R3 :=
  cross (vsub T S) (vsub T E)

/-- `planeNormal.normalize()`. -/
noncomputable def bendN (S T E : R3) : R3 := normalize (bendPlaneNormal S T E)

/-- `let v = Cross(u, planeNormal)` (before its normalization). -/
noncomputable def bendV0 (S T E : R3) : R3 := cross (bendU S T) (bendN S T E)

/-- `v.normalize()`. -/
noncomputable def bendV1 (S T E : R3) : R3 := normalize (bendV0 S T E)

/-- `const ex = Dot(startToEnd, u)`. -/
noncomputable def bendEx (S T E : R3) : ℝ := dot (vsub E S) (bendU S T)

/-- `let ey = Dot(startToEnd, v)` before the sign flip. -/
noncomputable def bendEy1 (S T E : R3) : ℝ := dot (vsub E S) (bendV1 S T E)

open Classical

/-- `v` after the sign flip (`if (ey < 0) v = v.scale(-1)`). -/
noncomputable def bendV (S T E : R3) : R3 :=
  if bendEy1 S T E < 0 then smul3 (-1) (bendV1 S T E) else bendV1 S T E

/-- `ey` after the sign flip. -/
noncomputable def bendEy (S T E : R3) : ℝ :=
  if bendEy1 S T E < 0 then -(bendEy1 S T E) else bendEy1 S T E

/-- `const elbowRadius = (ex * ex + ey * ey) / (2 * ey)`. -/
noncomputable def bendRadius (S T E : R3) : ℝ :=
  (bendEx S T E * bendEx S T E + bendEy S T E * bendEy S T E) / (2 * bendEy S T E)

/-- `const center = startVec.add(v.scale(elbowRadius))`. -/
noncomputable def bendCenter (S T E : R3) : R3 :=
  vadd S (smul3 (bendRadius S T E) (bendV S T E))

/-- The fitted arc data produced by `createBendMesh` (center, basis, radius
and the coordinates of E in the `(u, v)` basis). -/
structure BendFit where
  center : R3
  u : R3
  v : R3
  radius : ℝ
  ex : ℝ
  ey : ℝ

/-- The decision structure of `createBendMesh`: every `return null` guard of
the source, in source order; `some` carries the fitted arc. -/
noncomputable def fitBendArc (S T E : R3) : Option BendFit :=
  if lengthSquared (vsub T S) < tol ∨ lengthSquared (vsub T E) < tol then none
  else if lengthSquared (bendPlaneNormal S T E) < tol then none
  else if lengthSquared (bendV0 S T E) < tol then none
  else if |bendEy1 S T E| < tol then none
  else if bendRadius S T E ≤ tol then none
  else some { center := bendCenter S T E, u := bendU S T, v := bendV S T E
              radius := bendRadius S T E, ex := bendEx S T E, ey := bendEy S T E }

/-- The geometry produced for a bend whose three control points resolve:
an arc (`createBendMesh` succeeds) or the straight segments produced by
`createSegmentedBendMeshes`. -/
inductive BendGeometry where
  | arc (fit : BendFit)
  | segments (segs : List (R3 × R3))

/-- The `BOG` branch of `createMeshesForElement` for resolved control
points: try the arc, fall back to the two segments `S→T` and `T→E`. -/
noncomputable def createBendGeometry (S T E : R3) : BendGeometry :=
  match fitBendArc S T E with
  | some fit => .arc fit
  | none => .segments [(S, T), (T, E)]

/-! # Theorems

Helper lemmas come first, then one theorem per claim (with witnesses and
counterexamples where required). -/

/-! ## Character bookkeeping for the lexer (claim C10) -/

lemma not_bang_of_mem_stripInlineComment {c : Char} {l : Str}
    (h : c ∈ stripInlineComment l) : c ≠ '!' := by
  have := List.mem_takeWhile_imp h
  simpa using this

lemma stripInlineComment_append (a b : Str) (h : '!' ∉ a) :
    stripInlineComment (a ++ '!' :: b) = a := by
  unfold stripInlineComment
  rw [List.takeWhile_append_of_pos (by intro x hx; simp; rintro rfl; exact h hx)]
  simp [List.takeWhile]

lemma mem_of_mem_jsTrim {c : Char} {s : Str} (h : c ∈ jsTrim s) : c ∈ s := by
  unfold jsTrim at h
  rw [List.mem_reverse] at h
  have h2 : c ∈ (List.dropWhile isWs s).reverse := List.dropWhile_subset _ h
  rw [List.mem_reverse] at h2
  exact List.dropWhile_subset _ h2

lemma splitTokensGo_chars :
    ∀ (cs cur : Str) (iq : Bool) (qc : Option Char) (t : Str),
      t ∈ splitTokensGo cs cur iq qc → ∀ c ∈ t, c ∈ cur ∨ c ∈ cs := by
  intro cs
  induction cs with
  | nil =>
    intro cur iq qc t ht c hc
    unfold splitTokensGo at ht
    split_ifs at ht with h
    · simp at ht
    · simp at ht
      subst ht
      exact Or.inl hc
  | cons d rest ih =>
    intro cur iq qc t ht c hc
    unfold splitTokensGo at ht
    split_ifs at ht with h1 h2 h3 h4
    · rcases ih _ _ _ _ ht c hc with h | h
      · simp at h
        rcases h with h | h
        · exact Or.inl h
        · subst h; simp
      · simp [h]
    · rcases ih _ _ _ _ ht c hc with h | h
      · simp at h
        rcases h with h | h
        · exact Or.inl h
        · subst h; simp
      · simp [h]
    · rcases ih _ _ _ _ ht c hc with h | h
      · simp at h
      · simp [h]
    · simp at ht
      rcases ht with rfl | ht
      · exact Or.inl hc
      · rcases ih _ _ _ _ ht c hc with h | h
        · simp at h
        · simp [h]
    · rcases ih _ _ _ _ ht c hc with h | h
      · simp at h
        rcases h with h | h
        · exact Or.inl h
        · subst h; simp
      · simp [h]

lemma splitTokens_chars {line t : Str} (ht : t ∈ splitTokens line) {c : Char}
    (hc : c ∈ t) : c ∈ line := by
  rcases splitTokensGo_chars line [] false none t ht c hc with h | h
  · simp at h
  · exact h

lemma toUpper_ne_bang {c : Char} (h : c ≠ '!') : c.toUpper ≠ '!' := by
  show (if c.toNat ≥ 97 ∧ c.toNat ≤ 122 then Char.ofNat (c.toNat - 32) else c) ≠ '!'
  split_ifs with hcond
  · obtain ⟨h97, h122⟩ := hcond
    set n := c.toNat with hn
    have h97' : 97 ≤ n := h97
    have h122' : n ≤ 122 := h122
    interval_cases n <;> decide
  · exact h

lemma not_bang_jsToUpper {s : Str} (h : '!' ∉ s) : '!' ∉ jsToUpper s := by
  intro hmem
  unfold jsToUpper at hmem
  rw [List.mem_map] at hmem
  obtain ⟨d, hd, hdu⟩ := hmem
  have hdne : d ≠ '!' := by rintro rfl; exact h hd
  exact toUpper_ne_bang hdne hdu

lemma mem_normalizeValue_fst {c : Char} {v : Str} (h : c ∈ (normalizeValue v).1) :
    c ∈ v := by
  unfold normalizeValue at h
  rcases hv : jsTrim v with _ | ⟨d, rest⟩ <;> rw [hv] at h
  · simp at h
  · simp only at h
    split_ifs at h with hq
    · have h1 : c ∈ ((d :: rest).drop 1).dropLast := h
      have h2 : c ∈ (d :: rest).drop 1 := (List.dropLast_sublist _).subset h1
      have h3 : c ∈ d :: rest := (List.drop_sublist _ _).subset h2
      rw [← hv] at h3
      exact mem_of_mem_jsTrim h3
    · rw [← hv] at h
      exact mem_of_mem_jsTrim h

lemma parseField_noBang {token rc : Str} {ln : ℕ} {f : RawField}
    (htok : '!' ∉ token) (h : parseField token rc ln = .ok f) :
    '!' ∉ f.key ∧ '!' ∉ f.value ∧ '!' ∉ f.rawValue := by
  unfold parseField at h
  rcases hidx : token.findIdx? (· = '=') with _ | idx <;> rw [hidx] at h
  · simp at h
  · simp only at h
    by_cases hkey : jsTrim (List.take idx token) = []
    · rw [if_pos hkey] at h
      simp at h
    · rw [if_neg hkey] at h
      simp only [Except.ok.injEq] at h
      subst h
      refine ⟨?_, ?_, ?_⟩
      · exact not_bang_jsToUpper (fun hm =>
          htok (List.take_subset _ _ (mem_of_mem_jsTrim hm)))
      · intro hm
        exact htok (List.drop_subset _ _ (mem_normalizeValue_fst hm))
      · intro hm
        exact htok (List.drop_subset _ _ (mem_of_mem_jsTrim hm))

lemma tokenize_tokens_eq {lines : List SourceLine} {l : TokenizedLine}
    (hl : l ∈ tokenize lines) :
    ∃ l0 ∈ lines, l.tokens = splitTokens (jsTrim (stripInlineComment l0.content)) := by
  unfold tokenize at hl
  rw [List.mem_filterMap] at hl
  obtain ⟨l0, hl0, heq⟩ := hl
  refine ⟨l0, hl0, ?_⟩
  simp only at heq
  by_cases h1 : jsTrim (stripInlineComment l0.content) = []
  · rw [if_pos h1] at heq
    simp at heq
  · rw [if_neg h1] at heq
    by_cases h2 : splitTokens (jsTrim (stripInlineComment l0.content)) = []
    · rw [if_pos h2] at heq
      simp at heq
    · rw [if_neg h2] at heq
      simp only [Option.some.injEq] at heq
      subst heq
      rfl

lemma tokenize_token_noBang {lines : List SourceLine} {l : TokenizedLine}
    (hl : l ∈ tokenize lines) {t : Str} (ht : t ∈ l.tokens) : '!' ∉ t := by
  obtain ⟨l0, _, htoks⟩ := tokenize_tokens_eq hl
  rw [htoks] at ht
  intro hc
  exact not_bang_of_mem_stripInlineComment
    (mem_of_mem_jsTrim (splitTokens_chars ht hc)) rfl

lemma lexNtr_record_noBang {source : Str} {r : RawRecord}
    (hr : r ∈ (lexNtr source).records) :
    '!' ∉ r.code ∧ ∀ f ∈ r.fields, '!' ∉ f.key ∧ '!' ∉ f.value ∧ '!' ∉ f.rawValue := by
  unfold lexNtr at hr
  simp only [List.mem_filterMap] at hr
  obtain ⟨l, hl, hlex⟩ := hr
  unfold lexLine at hlex
  rcases htoks : l.tokens with _ | ⟨codeToken, rest⟩ <;> rw [htoks] at hlex
  · simp at hlex
  · simp only at hlex
    have hcode : '!' ∉ codeToken :=
      tokenize_token_noBang hl (htoks ▸ List.mem_cons_self _ _)
    by_cases hC : jsToUpper (jsTrim codeToken) = str "C"
    · rw [if_pos hC] at hlex
      simp at hlex
    · rw [if_neg hC] at hlex
      simp only [Option.some.injEq] at hlex
      subst hlex
      constructor
      · exact not_bang_jsToUpper (fun hm => hcode (mem_of_mem_jsTrim hm))
      · intro f hf
        simp only [List.mem_filterMap] at hf
        obtain ⟨t, ht, hft⟩ := hf
        have htk : '!' ∉ t :=
          tokenize_token_noBang hl (htoks ▸ List.mem_cons_of_mem _ ht)
        rcases hpf : parseField t (jsToUpper (jsTrim codeToken)) l.lineNumber with e | f'
          <;> rw [hpf] at hft
        · simp [Except.toOption] at hft
        · simp [Except.toOption] at hft
          subst hft
          exact parseField_noBang htk hpf

/-- C10: the lexer discards the first `!` of every line and everything after
it — even inside a quoted value — so no emitted record code, field key,
field value or raw value ever contains `!`; and a line is truncated exactly
at its first `!`. -/
theorem lexer_strips_inline_comment :
    (∀ (source : Str) (r : RawRecord), r ∈ (lexNtr source).records →
      '!' ∉ r.code ∧ ∀ f ∈ r.fields, '!' ∉ f.key ∧ '!' ∉ f.value ∧ '!' ∉ f.rawValue) ∧
    (∀ a b : Str, '!' ∉ a → stripInlineComment (a ++ '!' :: b) = a) := by
  constructor
  · intro source r hr
    exact lexNtr_record_noBang hr
  · intro a b h
    exact stripInlineComment_append a b h

/-- Witness for C10 at a concrete source whose quoted value contains `!`:
the single lexed record carries no `!` anywhere, and the quoted value is
truncated at the `!`. -/
theorem lexer_strips_inline_comment_witness :
    ('!' ∉ ({ code := str "RO", lineNumber := 1, raw := str "RO P1='a!b' X=1"
              fields := [{ key := str "P1", value := str "'a", rawValue := str "'a"
                           quoted := false, lineNumber := 1 }] } : RawRecord).code ∧
      ∀ f ∈ ({ code := str "RO", lineNumber := 1, raw := str "RO P1='a!b' X=1"
               fields := [{ key := str "P1", value := str "'a", rawValue := str "'a"
                            quoted := false, lineNumber := 1 }] } : RawRecord).fields,
        '!' ∉ f.key ∧ '!' ∉ f.value ∧ '!' ∉ f.rawValue) ∧
    stripInlineComment (str "RO P1='a" ++ '!' :: str "b' X=1") = str "RO P1='a" := by
  constructor
  · exact lexer_strips_inline_comment.1 (str "RO P1='a!b' X=1") _ (by decide)
  · exact lexer_strips_inline_comment.2 (str "RO P1='a") (str "b' X=1") (by decide)

/-! ## Required fields, unsupported codes and the parse loop (C8, C9, C4, C3) -/

lemma interpretRecords_cons (st : InterpState) (record : RawRecord)
    (rest : List RawRecord) :
    interpretRecords st (record :: rest) = interpretRecords (interpretStep st record) rest := rfl

lemma interpretStep_elementCode {st : InterpState} {record : RawRecord}
    (hcode : record.code = str "RO" ∨ record.code = str "BOG" ∨ record.code = str "TEE" ∨
      record.code = str "ARM" ∨ record.code = str "PROF" ∨ record.code = str "RED") :
    interpretStep st record =
      match parseElementRecord record with
      | .ok element => { st with elements := st.elements ++ [element] }
      | .error issue => { st with issues := st.issues ++ [issue] } := by
  unfold interpretStep
  have hb : (record.code = str "RO" || record.code = str "BOG" || record.code = str "TEE" ||
      record.code = str "ARM" || record.code = str "PROF" || record.code = str "RED") = true := by
    rcases hcode with h | h | h | h | h | h <;> simp [h]
  rw [if_pos hb]

/-- C8: a record missing a mandatory key (here an `RO` record with a valid
`P1` but no `P2`) produces exactly one error-severity issue whose message
names the missing field and which carries the record code; the record
contributes no element, and interpretation continues with the remaining
records. -/
theorem missing_required_field_drops_element
    (record : RawRecord) (p : PointRef) (st : InterpState)
    (hcode : record.code = str "RO")
    (hP1 : requirePoint record (createFieldMap record) (str "P1") = .ok p)
    (hP2 : mapGet (createFieldMap record) (str "P2") = none) :
    parseStraightPipe record =
      .error (createIssue record.code record.lineNumber
        (str "Missing required field \"P2\"")) ∧
    (createIssue record.code record.lineNumber
        (str "Missing required field \"P2\"")).severity = .error ∧
    (∃ a b : Str,
      (createIssue record.code record.lineNumber
        (str "Missing required field \"P2\"")).message = a ++ str "P2" ++ b) ∧
    interpretStep st record = { st with issues := st.issues ++
      [createIssue record.code record.lineNumber
        (str "Missing required field \"P2\"")] } ∧
    ∀ rest : List RawRecord,
      interpretRecords st (record :: rest) =
        interpretRecords ({ st with issues := st.issues ++
          [createIssue record.code record.lineNumber
            (str "Missing required field \"P2\"")] }) rest := by
  have hpipe : parseStraightPipe record =
      .error (createIssue record.code record.lineNumber
        (str "Missing required field \"P2\"")) := by
    unfold parseStraightPipe
    simp only
    rw [hP1]
    unfold requirePoint requireField
    rw [hP2]
    dsimp only
    rw [(by decide :
      (str "Missing required field \"" ++ str "P2" ++ str "\"") =
        str "Missing required field \"P2\"")]
  have hstep : interpretStep st record = { st with issues := st.issues ++
      [createIssue record.code record.lineNumber
        (str "Missing required field \"P2\"")] } := by
    rw [interpretStep_elementCode (Or.inl hcode)]
    unfold parseElementRecord
    rw [if_pos hcode, hpipe]
  refine ⟨hpipe, rfl, ⟨str "Missing required field \"", str "\"", ?_⟩, hstep, ?_⟩
  · show str "Missing required field \"P2\"" =
      str "Missing required field \"" ++ str "P2" ++ str "\""
    decide
  · intro rest
    rw [interpretRecords_cons, hstep]

/-- Witness for C8: the spec's example record `RO P1='0,0,0' DN=DN150`
(missing `P2`), as lexed, is dropped with exactly the `P2` error issue. -/
theorem missing_required_field_drops_element_witness :
    parseStraightPipe
      { code := str "RO", lineNumber := 1, raw := str "RO P1='0,0,0' DN=DN150"
        fields := [{ key := str "P1", value := str "0,0,0", rawValue := str "'0,0,0'"
                     quoted := true, lineNumber := 1 },
                   { key := str "DN", value := str "DN150", rawValue := str "DN150"
                     quoted := false, lineNumber := 1 }] } =
      .error (createIssue (str "RO") 1 (str "Missing required field \"P2\"")) ∧
    (createIssue (str "RO") 1 (str "Missing required field \"P2\"")).severity = .error ∧
    (∃ a b : Str,
      (createIssue (str "RO") 1 (str "Missing required field \"P2\"")).message =
        a ++ str "P2" ++ b) ∧
    interpretStep { elements := [], issues := [], nominalDiameters := [] }
      { code := str "RO", lineNumber := 1, raw := str "RO P1='0,0,0' DN=DN150"
        fields := [{ key := str "P1", value := str "0,0,0", rawValue := str "'0,0,0'"
                     quoted := true, lineNumber := 1 },
                   { key := str "DN", value := str "DN150", rawValue := str "DN150"
                     quoted := false, lineNumber := 1 }] } =
      { elements := []
        nominalDiameters := []
        issues := [createIssue (str "RO") 1 (str "Missing required field \"P2\"")] } ∧
    ∀ rest : List RawRecord,
      interpretRecords { elements := [], issues := [], nominalDiameters := [] }
        ({ code := str "RO", lineNumber := 1, raw := str "RO P1='0,0,0' DN=DN150"
           fields := [{ key := str "P1", value := str "0,0,0", rawValue := str "'0,0,0'"
                        quoted := true, lineNumber := 1 },
                      { key := str "DN", value := str "DN150", rawValue := str "DN150"
                        quoted := false, lineNumber := 1 }] } :: rest) =
        interpretRecords
          { elements := []
            nominalDiameters := []
            issues := [createIssue (str "RO") 1 (str "Missing required field \"P2\"")] } rest := by
  exact missing_required_field_drops_element _
    (.coordinate ⟨.num 0, .num 0, .num 0⟩) _ (by decide) (by decide) (by decide)

/-- C9 (amended): a record whose code is none of the supported constructors
(`RO, BOG, TEE, ARM, PROF, RED, DN`) never aborts the parse and never adds an
error: an unrecognized code adds exactly one warning-severity issue and is
skipped, while the known-but-unhandled metadata codes `GEN, AUFT, TEXT,
LAST, IS` are skipped silently (no issue at all); in both cases no element
is added and interpretation continues with the remaining records. -/
theorem unsupported_code_skipped (st : InterpState) (record : RawRecord)
    (hns : record.code ∉ [str "RO", str "BOG", str "TEE", str "ARM", str "PROF",
      str "RED", str "DN"]) :
    (record.code ∈ [str "GEN", str "AUFT", str "TEXT", str "LAST", str "IS"] →
      interpretStep st record = st) ∧
    (record.code ∉ [str "GEN", str "AUFT", str "TEXT", str "LAST", str "IS"] →
      interpretStep st record = { st with issues := st.issues ++
        [createIssue record.code record.lineNumber
          (str "Unsupported record code \"" ++ record.code ++ str "\"") .warning] } ∧
      (createIssue record.code record.lineNumber
        (str "Unsupported record code \"" ++ record.code ++ str "\"") .warning).severity
        = .warning) ∧
    (interpretStep st record).elements = st.elements ∧
    (∀ i ∈ (interpretStep st record).issues, i ∈ st.issues ∨ i.severity = .warning) ∧
    ∀ rest : List RawRecord,
      interpretRecords st (record :: rest) = interpretRecords (interpretStep st record) rest := by
  simp only [List.mem_cons, List.mem_singleton, not_or] at hns
  obtain ⟨hRO, hBOG, hTEE, hARM, hPROF, hRED, hDN⟩ := hns
  have hb1 : (record.code = str "RO" || record.code = str "BOG" || record.code = str "TEE" ||
      record.code = str "ARM" || record.code = str "PROF" || record.code = str "RED") = false := by
    simp [hRO, hBOG, hTEE, hARM, hPROF, hRED]
  have hstep : interpretStep st record =
      if record.code = str "GEN" || record.code = str "AUFT" || record.code = str "TEXT" ||
          record.code = str "LAST" || record.code = str "IS" then st
      else { st with issues := st.issues ++
        [createIssue record.code record.lineNumber
          (str "Unsupported record code \"" ++ record.code ++ str "\"") .warning] } := by
    unfold interpretStep
    rw [if_neg (by simp [hb1]), if_neg (by simp [hDN])]
  refine ⟨?_, ?_, ?_, ?_, ?_⟩
  · intro hmeta
    have hc : (record.code = str "GEN" || record.code = str "AUFT" ||
        record.code = str "TEXT" || record.code = str "LAST" ||
        record.code = str "IS") = true := by
      simp only [List.mem_cons, List.not_mem_nil, or_false] at hmeta
      rcases hmeta with h | h | h | h | h <;> simp [h]
    rw [hstep, if_pos hc]
  · intro hmeta
    simp only [List.mem_cons, List.not_mem_nil, or_false, not_or] at hmeta
    obtain ⟨h1, h2, h3, h4, h5⟩ := hmeta
    rw [hstep, if_neg (by simp [h1, h2, h3, h4, h5])]
    exact ⟨rfl, rfl⟩
  · rw [hstep]
    split_ifs <;> rfl
  · intro i hi
    rw [hstep] at hi
    split_ifs at hi
    · exact Or.inl hi
    · simp only [List.mem_append, List.mem_singleton] at hi
      rcases hi with h | h
      · exact Or.inl h
      · subst h
        exact Or.inr rfl
  · intro rest
    exact interpretRecords_cons st record rest

/-- Witness for C9 at a concrete unrecognized record (`XYZ`, not a supported
or metadata code): the step adds exactly one warning and continues. -/
theorem unsupported_code_skipped_witness :
    ((str "XYZ" : Str) ∈ [str "GEN", str "AUFT", str "TEXT", str "LAST", str "IS"] →
      interpretStep { elements := [], issues := [], nominalDiameters := [] }
        { code := str "XYZ", lineNumber := 1, raw := str "XYZ", fields := [] } =
        { elements := [], issues := [], nominalDiameters := [] }) ∧
    ((str "XYZ" : Str) ∉ [str "GEN", str "AUFT", str "TEXT", str "LAST", str "IS"] →
      interpretStep { elements := [], issues := [], nominalDiameters := [] }
        { code := str "XYZ", lineNumber := 1, raw := str "XYZ", fields := [] } =
        { elements := [], nominalDiameters := []
          issues := [createIssue (str "XYZ") 1
            (str "Unsupported record code \"" ++ str "XYZ" ++ str "\"") .warning] } ∧
      (createIssue (str "XYZ") 1
        (str "Unsupported record code \"" ++ str "XYZ" ++ str "\"") .warning).severity
        = .warning) ∧
    (interpretStep { elements := [], issues := [], nominalDiameters := [] }
      { code := str "XYZ", lineNumber := 1, raw := str "XYZ", fields := [] }).elements = [] ∧
    (∀ i ∈ (interpretStep { elements := [], issues := [], nominalDiameters := [] }
        { code := str "XYZ", lineNumber := 1, raw := str "XYZ", fields := [] }).issues,
      i ∈ ([] : List ParseIssue) ∨ i.severity = .warning) ∧
    ∀ rest : List RawRecord,
      interpretRecords { elements := [], issues := [], nominalDiameters := [] }
        ({ code := str "XYZ", lineNumber := 1, raw := str "XYZ", fields := [] } :: rest) =
        interpretRecords (interpretStep { elements := [], issues := [], nominalDiameters := [] }
          { code := str "XYZ", lineNumber := 1, raw := str "XYZ", fields := [] }) rest := by
  exact unsupported_code_skipped
    { elements := [], issues := [], nominalDiameters := [] }
    { code := str "XYZ", lineNumber := 1, raw := str "XYZ", fields := [] } (by decide)

/-- Counterexample for C9 as stated: a known-but-unhandled metadata record
(`GEN`) is skipped with NO issue at all — the claimed warning-severity issue
is never produced (the issue list stays empty). -/
theorem metadata_code_produces_no_warning :
    interpretStep { elements := [], issues := [], nominalDiameters := [] }
      { code := str "GEN", lineNumber := 1, raw := str "GEN", fields := [] } =
      { elements := [], issues := [], nominalDiameters := [] } ∧
    (interpretStep { elements := [], issues := [], nominalDiameters := [] }
      { code := str "GEN", lineNumber := 1, raw := str "GEN", fields := [] }).issues = [] := by
  constructor <;> decide

/-- C4 (amended): nominal-diameter codes are whitespace-trimmed (but not
case-normalized) before being used as keys of the definition table: the
`DN` record's key is `asNominalDiameterCode` = trim of the `NAME` value, a
later duplicate definition for the same (trimmed, case-sensitive) code adds
one warning-severity issue and leaves the table unchanged (first definition
wins), and a fresh code is inserted. -/
theorem dn_first_definition_wins (st : InterpState) (record : RawRecord)
    (entry : NominalDiameterEntry)
    (hcode : record.code = str "DN")
    (hparse : parseNominalDiameterRecord record = .ok entry) :
    (∀ s : Str, asNominalDiameterCode s = jsTrim s) ∧
    (∀ nameField : RawField,
      mapGet (createFieldMap record) (str "NAME") = some nameField →
      entry.code = jsTrim nameField.value) ∧
    (mapHas st.nominalDiameters entry.code = true →
      interpretStep st record = { st with issues := st.issues ++
        [createIssue record.code record.lineNumber
          (str "Duplicate DN definition for \"" ++ entry.code ++ str "\" ignored")
          .warning] } ∧
      (createIssue record.code record.lineNumber
        (str "Duplicate DN definition for \"" ++ entry.code ++ str "\" ignored")
        .warning).severity = .warning) ∧
    (mapHas st.nominalDiameters entry.code = false →
      interpretStep st record =
        { st with nominalDiameters := mapSet st.nominalDiameters entry.code entry.definition }) := by
  have hb1 : (record.code = str "RO" || record.code = str "BOG" || record.code = str "TEE" ||
      record.code = str "ARM" || record.code = str "PROF" || record.code = str "RED") = false := by
    rw [hcode]; decide
  have hstep : interpretStep st record =
      if mapHas st.nominalDiameters entry.code then
        { st with issues := st.issues ++
          [createIssue record.code record.lineNumber
            (str "Duplicate DN definition for \"" ++ entry.code ++ str "\" ignored")
            .warning] }
      else { st with nominalDiameters := mapSet st.nominalDiameters entry.code entry.definition } := by
    unfold interpretStep
    rw [if_neg (by simp [hb1]), if_pos hcode]
    rw [hparse]
  refine ⟨fun s => rfl, ?_, ?_, ?_⟩
  · intro nameField hname
    unfold parseNominalDiameterRecord requireField at hparse
    simp only at hparse
    rw [hname] at hparse
    dsimp only at hparse
    rcases hDA : requireNumericField record (createFieldMap record) (str "DA") with e | da
      <;> rw [hDA] at hparse
    · simp at hparse
    · rcases hS : optionalNumericField record (createFieldMap record) (str "S") with e | th
        <;> rw [hS] at hparse
      · simp at hparse
      · simp only [Except.ok.injEq] at hparse
        rw [← hparse]
        rfl
  · intro hdup
    rw [hstep, if_pos hdup]
    exact ⟨rfl, rfl⟩
  · intro hfresh
    rw [hstep, if_neg (by simp [hfresh])]

/-- Witness for C4 at a concrete duplicate: a second `DN NAME=DN150 DA=2`
against a table already holding `DN150` adds one warning and leaves the
table unchanged. -/
theorem dn_first_definition_wins_witness :
    (∀ s : Str, asNominalDiameterCode s = jsTrim s) ∧
    (∀ nameField : RawField,
      mapGet (createFieldMap
        { code := str "DN", lineNumber := 2, raw := str "DN NAME=DN150 DA=2"
          fields := [{ key := str "NAME", value := str "DN150", rawValue := str "DN150"
                       quoted := false, lineNumber := 2 },
                     { key := str "DA", value := str "2", rawValue := str "2"
                       quoted := false, lineNumber := 2 }] }) (str "NAME") = some nameField →
      (⟨str "DN150", ⟨.num 2, none⟩⟩ : NominalDiameterEntry).code = jsTrim nameField.value) ∧
    (mapHas [(str "DN150", (⟨.num 1, none⟩ : NominalDiameterDefinition))] (str "DN150") = true →
      interpretStep
        { elements := [], issues := []
          nominalDiameters := [(str "DN150", ⟨.num 1, none⟩)] }
        { code := str "DN", lineNumber := 2, raw := str "DN NAME=DN150 DA=2"
          fields := [{ key := str "NAME", value := str "DN150", rawValue := str "DN150"
                       quoted := false, lineNumber := 2 },
                     { key := str "DA", value := str "2", rawValue := str "2"
                       quoted := false, lineNumber := 2 }] } =
        { elements := []
          issues := [createIssue (str "DN") 2
            (str "Duplicate DN definition for \"" ++ str "DN150" ++ str "\" ignored")
            .warning]
          nominalDiameters := [(str "DN150", ⟨.num 1, none⟩)] } ∧
      (createIssue (str "DN") 2
        (str "Duplicate DN definition for \"" ++ str "DN150" ++ str "\" ignored")
        .warning).severity = .warning) ∧
    (mapHas [(str "DN150", (⟨.num 1, none⟩ : NominalDiameterDefinition))] (str "DN150") = false →
      interpretStep
        { elements := [], issues := []
          nominalDiameters := [(str "DN150", ⟨.num 1, none⟩)] }
        { code := str "DN", lineNumber := 2, raw := str "DN NAME=DN150 DA=2"
          fields := [{ key := str "NAME", value := str "DN150", rawValue := str "DN150"
                       quoted := false, lineNumber := 2 },
                     { key := str "DA", value := str "2", rawValue := str "2"
                       quoted := false, lineNumber := 2 }] } =
        { elements := [], issues := []
          nominalDiameters := mapSet ([(str "DN150", ⟨.num 1, none⟩)] : List (Str × NominalDiameterDefinition)) (str "DN150") ⟨.num 2, none⟩ }) := by
  exact dn_first_definition_wins
    { elements := [], issues := []
      nominalDiameters := [(str "DN150", ⟨.num 1, none⟩)] }
    { code := str "DN", lineNumber := 2, raw := str "DN NAME=DN150 DA=2"
      fields := [{ key := str "NAME", value := str "DN150", rawValue := str "DN150"
                   quoted := false, lineNumber := 2 },
                 { key := str "DA", value := str "2", rawValue := str "2"
                   quoted := false, lineNumber := 2 }] }
    ⟨str "DN150", ⟨.num 2, none⟩⟩ (by decide) (by decide)

/-- Counterexample for C4 as stated: codes are NOT case-normalized — the
definitions `DN NAME=DN150 DA=1` and `DN NAME=dn150 DA=2` produce two
distinct table keys and no duplicate warning, whereas under the claimed
case-normalization the second would be a duplicate (one key, one warning). -/
theorem dn_codes_not_case_normalized :
    interpretRecords { elements := [], issues := [], nominalDiameters := [] }
      [{ code := str "DN", lineNumber := 1, raw := str "DN NAME=DN150 DA=1"
         fields := [{ key := str "NAME", value := str "DN150", rawValue := str "DN150"
                      quoted := false, lineNumber := 1 },
                    { key := str "DA", value := str "1", rawValue := str "1"
                      quoted := false, lineNumber := 1 }] },
       { code := str "DN", lineNumber := 2, raw := str "DN NAME=dn150 DA=2"
         fields := [{ key := str "NAME", value := str "dn150", rawValue := str "dn150"
                      quoted := false, lineNumber := 2 },
                    { key := str "DA", value := str "2", rawValue := str "2"
                      quoted := false, lineNumber := 2 }] }] =
      { elements := [], issues := []
        nominalDiameters := [(str "DN150", ⟨.num 1, none⟩), (str "dn150", ⟨.num 2, none⟩)] } ∧
    (str "DN150" : Str) ≠ str "dn150" := by
  constructor <;> decide

/-- C3 (amended): an error-severity issue from a record drops only that
element during interpretation (the loop continues), but `parseNtr` then
rejects the WHOLE document whenever any collected issue has error severity —
not only for document-level violations; warning-severity issues alone never
cause rejection (parsing proceeds to validation and can succeed). -/
theorem error_issue_rejects_whole_document (id source : Str) :
    (∀ (st : InterpState) (record : RawRecord) (iss : ParseIssue),
      (record.code = str "RO" ∨ record.code = str "BOG" ∨ record.code = str "TEE" ∨
        record.code = str "ARM" ∨ record.code = str "PROF" ∨ record.code = str "RED") →
      parseElementRecord record = .error iss →
      interpretStep st record = { st with issues := st.issues ++ [iss] }) ∧
    (∀ st : InterpState,
      st = interpretRecords
        { elements := [], issues := (lexNtr source).issues, nominalDiameters := [] }
        (lexNtr source).records →
      (st.issues.any (fun i => i.severity == Severity.error) = true →
        parseNtr id source = .error st.issues) ∧
      (∀ file : NtrFile,
        st.issues.any (fun i => i.severity == Severity.error) = false →
        validateNtrFile { id := id, metadata := {}, nominalDiameters := st.nominalDiameters
                          elements := st.elements, issues := st.issues } = some file →
        parseNtr id source = .ok { file := file, issues := st.issues })) := by
  constructor
  · intro st record iss hcode herr
    rw [interpretStep_elementCode hcode, herr]
  · intro st hst
    constructor
    · intro hany
      unfold parseNtr
      simp only
      rw [← hst, if_pos hany]
    · intro file hany hval
      unfold parseNtr
      simp only
      rw [← hst, if_neg (by simp [hany]), hval]

/-- Witness for C3 at the two-severity boundary: for a source whose only
issue is none at all (a clean single-pipe document), the collected issues
contain no error and `parseNtr` succeeds with the validated file. -/
theorem error_issue_rejects_whole_document_witness :
    parseNtr (str "doc") (str "RO P1='0,0,0' P2='5,0,0' DN=DN150") =
      .ok { file := { id := str "doc", metadata := {}
                      nominalDiameters := []
                      elements := [.ro { rawFields := [(str "P1", str "'0,0,0'"),
                                            (str "P2", str "'5,0,0'"), (str "DN", str "DN150")] }
                        (.coordinate ⟨.num 0, .num 0, .num 0⟩)
                        (.coordinate ⟨.num 5, .num 0, .num 0⟩) (str "DN150")]
                      issues := [] }
            issues := [] } := by
  have h := (error_issue_rejects_whole_document (str "doc")
    (str "RO P1='0,0,0' P2='5,0,0' DN=DN150")).2
    (interpretRecords
      { elements := [], issues := (lexNtr (str "RO P1='0,0,0' P2='5,0,0' DN=DN150")).issues
        nominalDiameters := [] }
      (lexNtr (str "RO P1='0,0,0' P2='5,0,0' DN=DN150")).records) rfl
  exact h.2 _ (by decide) (by decide)

/-- Counterexample for C3 as stated: a document with one field-level error
record and one fully valid record does NOT yield the valid element — the
interpreter kept the valid element internally (one element in the loop
state), yet `parseNtr` rejects the whole document with the single error
issue, so error severity is not "element-local only". -/
theorem error_issue_not_element_local :
    (interpretRecords { elements := [], issues := [], nominalDiameters := [] }
      (lexNtr (str "RO P1='0,0,0' DN=DN150\nRO P1='0,0,0' P2='1,0,0' DN=DN150")).records).elements.length
      = 1 ∧
    parseNtr (str "doc") (str "RO P1='0,0,0' DN=DN150\nRO P1='0,0,0' P2='1,0,0' DN=DN150") =
      .error [{ severity := .error, message := str "Missing required field \"P2\""
                recordCode := str "RO", lineNumber := 1 }] := by
  constructor <;> decide

/-- C7 (amended): a quoted point field parses to a `Coordinate` exactly when
splitting the value on `,` yields exactly three parts each accepted by
JavaScript `parseFloat` (a parseable — possibly infinite — numeric prefix;
only `NaN` is rejected), with the component values given by `parseFloat`;
an unquoted value parses to a `NamedNode` with the trimmed token as id when
non-empty, and an empty unquoted value or a malformed quoted value produces
one error issue instead of a point. -/
theorem point_field_parsing (record : RawRecord) (key : Str) (field : RawField) :
    (field.quoted = true →
      (∀ v : V3 JSNum, parseCoordinate field.value = some v →
        parsePointField record key field = .ok (.coordinate v)) ∧
      (parseCoordinate field.value = none →
        parsePointField record key field =
          .error (createIssue record.code field.lineNumber
            (str "Invalid coordinate for field \"" ++ key ++ str "\"")))) ∧
    (field.quoted = false → jsTrim field.value ≠ [] →
      parsePointField record key field = .ok (.named (jsTrim field.value))) ∧
    (field.quoted = false → jsTrim field.value = [] →
      parsePointField record key field =
        .error (createIssue record.code field.lineNumber
          (str "Missing coordinate value for \"" ++ key ++ str "\""))) ∧
    (∀ (s : Str) (v : V3 JSNum), parseCoordinate s = some v ↔
      ∃ a b c : Str, (jsSplit ',' s).map jsTrim = [a, b, c] ∧
        parseFloat a = some v.x ∧ parseFloat b = some v.y ∧ parseFloat c = some v.z) := by
  refine ⟨?_, ?_, ?_, ?_⟩
  · intro hq
    constructor
    · intro v hv
      unfold parsePointField
      rw [if_pos hq, hv]
      rfl
    · intro hv
      unfold parsePointField
      rw [if_pos hq, hv]
  · intro hq hne
    unfold parsePointField
    rw [if_neg (by simp [hq]), if_neg hne]
    rfl
  · intro hq he
    unfold parsePointField
    rw [if_neg (by simp [hq]), if_pos he]
  · intro s v
    unfold parseCoordinate
    simp only
    constructor
    · intro h
      split at h
      · next a b c heq =>
        split at h
        · next x y z hx hy hz =>
          simp only [Option.some.injEq] at h
          subst h
          exact ⟨a, b, c, heq, hx, hy, hz⟩
        · simp at h
      · simp at h
    · rintro ⟨a, b, c, habc, ha, hb, hc⟩
      rw [habc]
      dsimp only
      rw [ha, hb, hc]

/-- Witness for C7 at `'1.5, 2, 3'`: the quoted triple parses to the exact
coordinate, and an unquoted `NODE1` parses to the named node. -/
theorem point_field_parsing_witness :
    parsePointField { code := str "RO", lineNumber := 1, raw := [], fields := [] } (str "P1")
      { key := str "P1", value := str "1.5, 2, 3", rawValue := str "'1.5, 2, 3'"
        quoted := true, lineNumber := 1 } =
      .ok (.coordinate ⟨.num (mkRat 3 2), .num 2, .num 3⟩) ∧
    parsePointField { code := str "RO", lineNumber := 1, raw := [], fields := [] } (str "P2")
      { key := str "P2", value := str "NODE1", rawValue := str " NODE1 "
        quoted := false, lineNumber := 1 } =
      .ok (.named (jsTrim (str "NODE1"))) := by
  constructor
  · exact ((point_field_parsing { code := str "RO", lineNumber := 1, raw := [], fields := [] }
      (str "P1")
      { key := str "P1", value := str "1.5, 2, 3", rawValue := str "'1.5, 2, 3'"
        quoted := true, lineNumber := 1 }).1 rfl).1 _ (by decide)
  · exact (point_field_parsing { code := str "RO", lineNumber := 1, raw := [], fields := [] }
      (str "P2")
      { key := str "P2", value := str "NODE1", rawValue := str " NODE1 "
        quoted := false, lineNumber := 1 }).2.1 rfl (by decide)

/-- Counterexample for C7 as stated: `parseFloat` accepts any numeric
prefix and infinities, so the quoted value `'1x,2,3'` (where `1x` is not a
number) produces the coordinate `(1, 2, 3)` and `'Infinity,0,0'` produces a
coordinate with a non-finite component — a coordinate point is NOT only
produced from exactly three comma-separated finite numbers. -/
theorem coordinate_from_non_numeric_text :
    parsePointField { code := str "RO", lineNumber := 1, raw := [], fields := [] } (str "P1")
      { key := str "P1", value := str "1x,2,3", rawValue := str "'1x,2,3'"
        quoted := true, lineNumber := 1 } =
      .ok (.coordinate ⟨.num 1, .num 2, .num 3⟩) ∧
    parseCoordinate (str "Infinity,0,0") = some ⟨.posInf, .num 0, .num 0⟩ := by
  constructor <;> decide

/-! ## Trim idempotence and validator idempotence (claim C5) -/

lemma dropWhile_idem (p : Char → Bool) (l : Str) :
    List.dropWhile p (List.dropWhile p l) = List.dropWhile p l := by
  induction l with
  | nil => rfl
  | cons c t ih =>
    by_cases h : p c
    · simp [List.dropWhile_cons, h, ih]
    · simp [List.dropWhile_cons, h]

lemma dropWhile_eq_self_of_prefix {p : Char → Bool} {u l' : Str}
    (hu : List.dropWhile p u = u) (hp : l' <+: u) : List.dropWhile p l' = l' := by
  cases l' with
  | nil => rfl
  | cons d t =>
    obtain ⟨r, hr⟩ := hp
    have hd : ¬ p d := by
      intro hpd
      rw [← hr] at hu
      simp only [List.cons_append] at hu
      rw [List.dropWhile_cons, if_pos hpd] at hu
      have hlen := congrArg List.length hu
      have hle := (List.dropWhile_sublist (l := t ++ r) p).length_le
      simp only [List.length_cons] at hlen
      omega
    rw [List.dropWhile_cons, if_neg hd]

lemma jsTrim_left_trimmed (s : Str) : List.dropWhile isWs (jsTrim s) = jsTrim s := by
  have h1 : List.dropWhile isWs (List.dropWhile isWs s) = List.dropWhile isWs s :=
    dropWhile_idem isWs s
  have h2 : jsTrim s <+: List.dropWhile isWs s := by
    have := (List.dropWhile_suffix (l := (List.dropWhile isWs s).reverse) isWs).reverse
    rw [List.reverse_reverse] at this
    exact this
  exact dropWhile_eq_self_of_prefix h1 h2

lemma jsTrim_idem (s : Str) : jsTrim (jsTrim s) = jsTrim s := by
  show ((List.dropWhile isWs (jsTrim s)).reverse.dropWhile isWs).reverse = jsTrim s
  rw [jsTrim_left_trimmed]
  show ((List.dropWhile isWs
    ((List.dropWhile isWs s).reverse)).reverse.reverse.dropWhile isWs).reverse = jsTrim s
  rw [List.reverse_reverse, dropWhile_idem]
  rfl

lemma checkTrimMin1_idem {s t : Str} (h : checkTrimMin1 s = some t) :
    checkTrimMin1 t = some t := by
  unfold checkTrimMin1 at h ⊢
  by_cases he : jsTrim s = []
  · rw [if_pos he] at h
    simp at h
  · rw [if_neg he] at h
    simp only [Option.some.injEq] at h
    subst h
    rw [jsTrim_idem, if_neg he]

lemma checkTrimMin1_trimmed {s t : Str} (h : checkTrimMin1 s = some t) :
    jsTrim t = t := by
  unfold checkTrimMin1 at h
  by_cases he : jsTrim s = []
  · rw [if_pos he] at h
    simp at h
  · rw [if_neg he] at h
    simp only [Option.some.injEq] at h
    subst h
    exact jsTrim_idem s

lemma validateOptStr_idem {o r : Option Str} (h : validateOptStr o = some r) :
    validateOptStr r = some r := by
  cases o with
  | none =>
    simp [validateOptStr] at h
    subst h
    rfl
  | some s =>
    unfold validateOptStr at h
    dsimp only at h
    rcases hc : checkTrimMin1 s with _ | t <;> rw [hc] at h <;> simp at h
    subst h
    unfold validateOptStr
    dsimp only
    rw [checkTrimMin1_idem hc]
    rfl

lemma validateFiniteNum_idem {n m : JSNum} (h : validateFiniteNum n = some m) :
    validateFiniteNum m = some m := by
  unfold validateFiniteNum at h ⊢
  by_cases hf : n.isFinite
  · rw [if_pos hf] at h
    simp at h
    subst h
    rw [if_pos hf]
  · rw [if_neg hf] at h
    simp at h

lemma validateWeight_idem {n m : JSNum} (h : validateWeight n = some m) :
    validateWeight m = some m := by
  cases n with
  | num q =>
    unfold validateWeight at h
    dsimp only at h
    by_cases hq : 0 ≤ q
    · rw [if_pos hq] at h
      simp at h
      subst h
      unfold validateWeight
      dsimp only
      rw [if_pos hq]
    · rw [if_neg hq] at h
      simp at h
  | posInf => simp [validateWeight] at h
  | negInf => simp [validateWeight] at h

lemma validateOptWeight_idem {o r : Option JSNum} (h : validateOptWeight o = some r) :
    validateOptWeight r = some r := by
  cases o with
  | none =>
    simp [validateOptWeight] at h
    subst h
    rfl
  | some w =>
    unfold validateOptWeight at h
    dsimp only at h
    rcases hw : validateWeight w with _ | w' <;> rw [hw] at h <;> simp at h
    subst h
    unfold validateOptWeight
    dsimp only
    rw [validateWeight_idem hw]
    rfl

lemma validatePoint_idem {p q : PointRef} (h : validatePoint p = some q) :
    validatePoint q = some q := by
  cases p with
  | coordinate v =>
    unfold validatePoint at h
    dsimp only at h
    by_cases hf : (v.x.isFinite && v.y.isFinite && v.z.isFinite : Bool)
    · rw [if_pos hf] at h
      simp only [Option.some.injEq] at h
      subst h
      unfold validatePoint
      dsimp only
      rw [if_pos hf]
    · rw [if_neg hf] at h
      simp at h
  | named id =>
    unfold validatePoint at h
    dsimp only at h
    rcases hc : checkTrimMin1 id with _ | t <;> rw [hc] at h <;> simp at h
    subst h
    unfold validatePoint createNamedPoint
    have ht : jsTrim t = t := checkTrimMin1_trimmed hc
    dsimp only
    rw [ht, checkTrimMin1_idem hc]
    simp [createNamedPoint, ht]

lemma validateOptPoint_idem {o r : Option PointRef} (h : validateOptPoint o = some r) :
    validateOptPoint r = some r := by
  cases o with
  | none =>
    simp [validateOptPoint] at h
    subst h
    rfl
  | some p =>
    unfold validateOptPoint at h
    dsimp only at h
    rcases hp : validatePoint p with _ | p' <;> rw [hp] at h <;> simp at h
    subst h
    unfold validateOptPoint
    dsimp only
    rw [validatePoint_idem hp]
    rfl

lemma traverseOpt_idem {α : Type} {f : α → Option α}
    (hf : ∀ x y, f x = some y → f y = some y) :
    ∀ l r : List α, traverseOpt f l = some r → traverseOpt f r = some r := by
  intro l
  induction l with
  | nil =>
    intro r h
    simp [traverseOpt] at h
    subst h
    rfl
  | cons x xs ih =>
    intro r h
    unfold traverseOpt at h
    rcases hx : f x with _ | y <;> rw [hx] at h
    · simp at h
    · rcases hxs : traverseOpt f xs with _ | ys <;> rw [hxs] at h
      · simp at h
      · simp only [Option.some.injEq] at h
        subst h
        unfold traverseOpt
        rw [hf x y hx, ih ys hxs]

lemma validateBase_idem {b b' : ElementBase} (h : validateBase b = some b') :
    validateBase b' = some b' := by
  unfold validateBase at h
  rcases h1 : validateOptStr b.material with _ | material <;> rw [h1] at h <;> try simp at h
  rcases h2 : traverseOpt checkTrimMin1 b.loadCases with _ | loadCases <;> rw [h2] at h
    <;> try simp at h
  rcases h3 : validateOptStr b.description with _ | description <;> rw [h3] at h
    <;> try simp at h
  rcases h4 : validateOptStr b.reference with _ | reference <;> rw [h4] at h <;> try simp at h
  rcases h5 : validateOptStr b.pipeline with _ | pipeline <;> rw [h5] at h <;> try simp at h
  rcases h6 : validateOptStr b.componentTag with _ | componentTag <;> rw [h6] at h
    <;> try simp at h
  rcases h7 : validateOptStr b.norm with _ | norm <;> rw [h7] at h <;> try simp at h
  rcases h8 : validateOptStr b.series with _ | series <;> rw [h8] at h <;> try simp at h
  rcases h9 : validateOptStr b.schedule with _ | schedule <;> rw [h9] at h <;> try simp at h
  subst h
  unfold validateBase
  dsimp only
  rw [validateOptStr_idem h1, traverseOpt_idem (fun _ _ => checkTrimMin1_idem) _ _ h2,
    validateOptStr_idem h3, validateOptStr_idem h4, validateOptStr_idem h5,
    validateOptStr_idem h6, validateOptStr_idem h7, validateOptStr_idem h8,
    validateOptStr_idem h9]

set_option maxHeartbeats 1000000 in
lemma validateElement_idem {e e' : Element} (h : validateElement e = some e') :
    validateElement e' = some e' := by
  cases e with
  | ro base start pend dn =>
    unfold validateElement at h
    dsimp only at h
    rcases h1 : validateBase base with _ | base' <;> rw [h1] at h <;> try simp at h
    rcases h2 : validatePoint start with _ | start' <;> rw [h2] at h <;> try simp at h
    rcases h3 : validatePoint pend with _ | pend' <;> rw [h3] at h <;> try simp at h
    rcases h4 : checkTrimMin1 dn with _ | dn' <;> rw [h4] at h <;> try simp at h
    subst h
    unfold validateElement
    dsimp only
    rw [validateBase_idem h1, validatePoint_idem h2, validatePoint_idem h3,
      checkTrimMin1_idem h4]
  | bog base start pend tangent dn =>
    unfold validateElement at h
    dsimp only at h
    rcases h1 : validateBase base with _ | base' <;> rw [h1] at h <;> try simp at h
    rcases h2 : validatePoint start with _ | start' <;> rw [h2] at h <;> try simp at h
    rcases h3 : validatePoint pend with _ | pend' <;> rw [h3] at h <;> try simp at h
    rcases h4 : validatePoint tangent with _ | tangent' <;> rw [h4] at h <;> try simp at h
    rcases h5 : checkTrimMin1 dn with _ | dn' <;> rw [h5] at h <;> try simp at h
    subst h
    unfold validateElement
    dsimp only
    rw [validateBase_idem h1, validatePoint_idem h2, validatePoint_idem h3,
      validatePoint_idem h4, checkTrimMin1_idem h5]
  | tee base ms me bs be dnh dna teeType =>
    unfold validateElement at h
    dsimp only at h
    rcases h1 : validateBase base with _ | base' <;> rw [h1] at h <;> try simp at h
    rcases h2 : validatePoint ms with _ | ms' <;> rw [h2] at h <;> try simp at h
    rcases h3 : validatePoint me with _ | me' <;> rw [h3] at h <;> try simp at h
    rcases h4 : validatePoint bs with _ | bs' <;> rw [h4] at h <;> try simp at h
    rcases h5 : validatePoint be with _ | be' <;> rw [h5] at h <;> try simp at h
    rcases h6 : checkTrimMin1 dnh with _ | dnh' <;> rw [h6] at h <;> try simp at h
    rcases h7 : checkTrimMin1 dna with _ | dna' <;> rw [h7] at h <;> try simp at h
    rcases h8 : validateOptStr teeType with _ | tt' <;> rw [h8] at h <;> try simp at h
    subst h
    unfold validateElement
    dsimp only
    rw [validateBase_idem h1, validatePoint_idem h2, validatePoint_idem h3,
      validatePoint_idem h4, validatePoint_idem h5, checkTrimMin1_idem h6,
      checkTrimMin1_idem h7, validateOptStr_idem h8]
  | arm base start pend center dn1 dn2 weight =>
    unfold validateElement at h
    dsimp only at h
    rcases h1 : validateBase base with _ | base' <;> rw [h1] at h <;> try simp at h
    rcases h2 : validatePoint start with _ | start' <;> rw [h2] at h <;> try simp at h
    rcases h3 : validatePoint pend with _ | pend' <;> rw [h3] at h <;> try simp at h
    rcases h4 : validatePoint center with _ | center' <;> rw [h4] at h <;> try simp at h
    rcases h5 : checkTrimMin1 dn1 with _ | dn1' <;> rw [h5] at h <;> try simp at h
    rcases h6 : checkTrimMin1 dn2 with _ | dn2' <;> rw [h6] at h <;> try simp at h
    rcases h7 : validateOptWeight weight with _ | w' <;> rw [h7] at h <;> try simp at h
    subst h
    unfold validateElement
    dsimp only
    rw [validateBase_idem h1, validatePoint_idem h2, validatePoint_idem h3,
      validatePoint_idem h4, checkTrimMin1_idem h5, checkTrimMin1_idem h6,
      validateOptWeight_idem h7]
  | prof base start pend profileType axis axisDirection =>
    unfold validateElement at h
    dsimp only at h
    rcases h1 : validateBase base with _ | base' <;> rw [h1] at h <;> try simp at h
    rcases h2 : validatePoint start with _ | start' <;> rw [h2] at h <;> try simp at h
    rcases h3 : validatePoint pend with _ | pend' <;> rw [h3] at h <;> try simp at h
    rcases h4 : checkTrimMin1 profileType with _ | typ' <;> rw [h4] at h <;> try simp at h
    rcases h5 : validateOptPoint axisDirection with _ | dir' <;> rw [h5] at h <;> try simp at h
    subst h
    unfold validateElement
    dsimp only
    rw [validateBase_idem h1, validatePoint_idem h2, validatePoint_idem h3,
      checkTrimMin1_idem h4, validateOptPoint_idem h5]
  | red base start pend dn1 dn2 =>
    unfold validateElement at h
    dsimp only at h
    rcases h1 : validateBase base with _ | base' <;> rw [h1] at h <;> try simp at h
    rcases h2 : validatePoint start with _ | start' <;> rw [h2] at h <;> try simp at h
    rcases h3 : validatePoint pend with _ | pend' <;> rw [h3] at h <;> try simp at h
    rcases h4 : checkTrimMin1 dn1 with _ | dn1' <;> rw [h4] at h <;> try simp at h
    rcases h5 : checkTrimMin1 dn2 with _ | dn2' <;> rw [h5] at h <;> try simp at h
    subst h
    unfold validateElement
    dsimp only
    rw [validateBase_idem h1, validatePoint_idem h2, validatePoint_idem h3,
      checkTrimMin1_idem h4, checkTrimMin1_idem h5]

lemma validateDnDef_idem {d d' : NominalDiameterDefinition}
    (h : validateDnDef d = some d') : validateDnDef d' = some d' := by
  unfold validateDnDef at h
  rcases h1 : validateFiniteNum d.outsideDiameter with _ | od <;> rw [h1] at h
  · dsimp only at h
    rcases d.thickness <;> simp at h
  · rcases ht : d.thickness with _ | t <;> rw [ht] at h
    · dsimp only at h
      simp only [Option.some.injEq] at h
      subst h
      unfold validateDnDef
      rw [validateFiniteNum_idem h1]
    · dsimp only at h
      rcases h2 : validateFiniteNum t with _ | t' <;> rw [h2] at h <;> simp at h
      subst h
      unfold validateDnDef
      dsimp only
      rw [validateFiniteNum_idem h1]
      dsimp only
      rw [validateFiniteNum_idem h2]
      rfl

lemma validateIssue_idem {i i' : ParseIssue} (h : validateIssue i = some i') :
    validateIssue i' = some i' := by
  unfold validateIssue at h
  rcases h1 : checkTrimMin1 i.message with _ | msg <;> rw [h1] at h <;> try simp at h
  rcases h2 : checkTrimMin1 i.recordCode with _ | rc <;> rw [h2] at h <;> try simp at h
  obtain ⟨h3, h4⟩ := h
  subst h4
  unfold validateIssue
  rw [checkTrimMin1_idem h1, checkTrimMin1_idem h2]
  dsimp only
  rw [if_pos h3]

lemma validateMetadata_idem {m m' : NtrMetadata} (h : validateMetadata m = some m') :
    validateMetadata m' = some m' := by
  unfold validateMetadata at h
  rcases h1 : validateOptStr m.projectName with _ | pn <;> rw [h1] at h <;> try simp at h
  rcases h2 : validateOptStr m.specification with _ | sp <;> rw [h2] at h <;> try simp at h
  subst h
  unfold validateMetadata
  rw [validateOptStr_idem h1, validateOptStr_idem h2]

lemma mem_mapSet {β : Type} {m : List (Str × β)} {k : Str} {v : β} {p : Str × β}
    (h : p ∈ mapSet m k v) : p ∈ m ∨ p = (k, v) := by
  unfold mapSet at h
  split_ifs at h with hhas
  · rw [List.mem_map] at h
    obtain ⟨q, hq, hpq⟩ := h
    by_cases hk : q.1 = k
    · rw [if_pos hk] at hpq
      exact Or.inr hpq.symm
    · rw [if_neg hk] at hpq
      exact Or.inl (hpq ▸ hq)
  · rw [List.mem_append, List.mem_singleton] at h
    exact h

lemma mapSet_keys_of_has {β : Type} {m : List (Str × β)} {k : Str} (v : β)
    (h : mapHas m k = true) :
    (mapSet m k v).map Prod.fst = m.map Prod.fst := by
  unfold mapSet
  rw [if_pos (by unfold mapHas at h; exact h)]
  rw [List.map_map]
  apply List.map_congr_left
  intro p _
  by_cases hk : p.1 = k
  · simp [hk]
  · simp [hk]

lemma mapSet_keys_of_not_has {β : Type} {m : List (Str × β)} {k : Str} (v : β)
    (h : mapHas m k = false) :
    (mapSet m k v).map Prod.fst = m.map Prod.fst ++ [k] := by
  unfold mapSet
  rw [if_neg (by unfold mapHas at h; simp [h])]
  simp

lemma not_mem_keys_of_not_has {β : Type} {m : List (Str × β)} {k : Str}
    (h : mapHas m k = false) : k ∉ m.map Prod.fst := by
  intro hmem
  rw [List.mem_map] at hmem
  obtain ⟨p, hp, hpk⟩ := hmem
  unfold mapHas at h
  rw [List.any_eq_false] at h
  have := h p hp
  simp [hpk] at this

lemma has_of_mem_keys {β : Type} {m : List (Str × β)} {k : Str}
    (h : k ∈ m.map Prod.fst) : mapHas m k = true := by
  rw [List.mem_map] at h
  obtain ⟨p, hp, hpk⟩ := h
  unfold mapHas
  rw [List.any_eq_true]
  exact ⟨p, hp, by simp [hpk]⟩

/-- The rebuilt definition table has pairwise-distinct, trim-fixed keys. -/
lemma foldl_mapSet_invariant {β : Type} :
    ∀ (vals acc : List (Str × β)),
      (acc.map Prod.fst).Nodup →
      (∀ k ∈ acc.map Prod.fst, jsTrim k = k) →
      ((vals.foldl (fun m p => mapSet m (asNominalDiameterCode p.1) p.2) acc).map
        Prod.fst).Nodup ∧
      ∀ k ∈ (vals.foldl (fun m p => mapSet m (asNominalDiameterCode p.1) p.2) acc).map
        Prod.fst, jsTrim k = k := by
  intro vals
  induction vals with
  | nil => intro acc h1 h2; exact ⟨h1, h2⟩
  | cons p rest ih =>
    intro acc h1 h2
    rw [List.foldl_cons]
    rcases hhas : mapHas acc (asNominalDiameterCode p.1) with _ | _
    · -- fresh key: appended
      apply ih
      · rw [mapSet_keys_of_not_has _ hhas]
        rw [List.nodup_append]
        refine ⟨h1, List.nodup_singleton _, ?_⟩
        intro a ha hb
        rw [List.mem_singleton] at hb
        subst hb
        exact not_mem_keys_of_not_has hhas ha
      · intro k hk
        rw [mapSet_keys_of_not_has _ hhas, List.mem_append, List.mem_singleton] at hk
        rcases hk with hk | hk
        · exact h2 k hk
        · subst hk
          exact jsTrim_idem p.1
    · -- existing key: keys unchanged
      apply ih
      · rw [mapSet_keys_of_has _ hhas]
        exact h1
      · intro k hk
        rw [mapSet_keys_of_has _ hhas] at hk
        exact h2 k hk

lemma mem_foldl_mapSet {β : Type} :
    ∀ (vals acc : List (Str × β)) (p : Str × β),
      p ∈ vals.foldl (fun m q => mapSet m (asNominalDiameterCode q.1) q.2) acc →
      p ∈ acc ∨ ∃ q ∈ vals, p = (asNominalDiameterCode q.1, q.2) := by
  intro vals
  induction vals with
  | nil => intro acc p h; exact Or.inl h
  | cons q rest ih =>
    intro acc p h
    rw [List.foldl_cons] at h
    rcases ih _ p h with h' | ⟨q', hq', hpq'⟩
    · rcases mem_mapSet h' with h'' | h''
      · exact Or.inl h''
      · exact Or.inr ⟨q, List.mem_cons_self _ _, h''⟩
    · exact Or.inr ⟨q', List.mem_cons_of_mem _ hq', hpq'⟩

/-- Folding `mapSet` over a list whose keys are distinct and trim-fixed
reproduces the list. -/
lemma foldl_mapSet_self {β : Type} :
    ∀ (r acc : List (Str × β)),
      (∀ k ∈ r.map Prod.fst, jsTrim k = k) →
      ((acc.map Prod.fst ++ r.map Prod.fst).Nodup) →
      r.foldl (fun m p => mapSet m (asNominalDiameterCode p.1) p.2) acc = acc ++ r := by
  intro r
  induction r with
  | nil => intro acc _ _; simp
  | cons p rest ih =>
    intro acc htrim hnd
    rw [List.foldl_cons]
    have hk : asNominalDiameterCode p.1 = p.1 :=
      htrim p.1 (by rw [List.map_cons]; exact List.mem_cons_self _ _)
    have hnot : mapHas acc p.1 = false := by
      rcases hh : mapHas acc p.1 with _ | _
      · rfl
      · exfalso
        have hmem : p.1 ∈ acc.map Prod.fst := by
          unfold mapHas at hh
          rw [List.any_eq_true] at hh
          obtain ⟨q, hq, hqk⟩ := hh
          simp only [decide_eq_true_eq] at hqk
          rw [← hqk]
          exact List.mem_map_of_mem Prod.fst hq
        rw [List.nodup_append] at hnd
        exact hnd.2.2 hmem (by rw [List.map_cons]; exact List.mem_cons_self _ _)
    have hstep : mapSet acc (asNominalDiameterCode p.1) p.2 = acc ++ [p] := by
      unfold mapSet
      rw [hk, if_neg (by unfold mapHas at hnot; simp [hnot])]
    rw [hstep]
    rw [ih (acc ++ [p])
      (fun k hk' => htrim k (by rw [List.map_cons]; exact List.mem_cons_of_mem _ hk'))
      (by
        rw [List.map_append, List.map_cons, List.map_nil]
        rw [List.map_cons, List.append_cons] at hnd
        exact hnd)]
    simp

lemma traverseOpt_mem {α : Type} {f : α → Option α} :
    ∀ {l r : List α}, traverseOpt f l = some r → ∀ y ∈ r, ∃ x ∈ l, f x = some y := by
  intro l
  induction l with
  | nil =>
    intro r h y hy
    simp [traverseOpt] at h
    subst h
    simp at hy
  | cons x xs ih =>
    intro r h y hy
    unfold traverseOpt at h
    rcases hx : f x with _ | x' <;> rw [hx] at h
    · simp at h
    · rcases hxs : traverseOpt f xs with _ | ys <;> rw [hxs] at h
      · simp at h
      · simp only [Option.some.injEq] at h
        subst h
        rcases List.mem_cons.1 hy with rfl | hy'
        · exact ⟨x, List.mem_cons_self _ _, hx⟩
        · obtain ⟨x'', hx'', hfx''⟩ := ih hxs y hy'
          exact ⟨x'', List.mem_cons_of_mem _ hx'', hfx''⟩

lemma traverseOpt_of_fixed {α : Type} {f : α → Option α} :
    ∀ {l : List α}, (∀ x ∈ l, f x = some x) → traverseOpt f l = some l := by
  intro l
  induction l with
  | nil => intro _; rfl
  | cons x xs ih =>
    intro h
    unfold traverseOpt
    rw [h x (List.mem_cons_self _ _), ih (fun y hy => h y (List.mem_cons_of_mem _ hy))]

lemma validateDefinitions_idem {l r : List (Str × NominalDiameterDefinition)}
    (h : validateDefinitions l = some r) : validateDefinitions r = some r := by
  unfold validateDefinitions at h
  rcases ht : traverseOpt (fun p => (validateDnDef p.2).map (fun d => (p.1, d))) l
    with _ | vals <;> rw [ht] at h
  · rw [Option.map_none'] at h
    cases h
  · simp only [Option.map_some', Option.some.injEq] at h
    -- every entry of the rebuilt table has a validated definition and a trim-fixed key
    have hfix : ∀ p ∈ r, (fun p => (validateDnDef p.2).map (fun d => (p.1, d))) p = some p := by
      intro p hp
      rw [← h] at hp
      rcases mem_foldl_mapSet vals [] p hp with h0 | ⟨q, hq, hpq⟩
      · simp at h0
      · obtain ⟨x, _, hfx⟩ := traverseOpt_mem ht q hq
        rcases hv : validateDnDef x.2 with _ | d' <;> rw [hv] at hfx
        · simp at hfx
        · simp only [Option.map_some', Option.some.injEq] at hfx
          have hq2 : q.2 = d' := by rw [← hfx]
          subst hpq
          dsimp only
          rw [hq2, validateDnDef_idem hv]
          rfl
    have hkeys := foldl_mapSet_invariant vals [] (by simp) (by simp)
    rw [h] at hkeys
    unfold validateDefinitions
    rw [traverseOpt_of_fixed hfix]
    simp only [Option.map_some', Option.some.injEq]
    rw [foldl_mapSet_self r [] hkeys.2 (by simpa using hkeys.1)]
    simp

/-- C5: the document validator is idempotent — validating a document the
validator has already accepted returns the identical document field-for-field
(all trimming normalization is applied by the first pass, and the second pass
reproduces every component unchanged). -/
theorem validation_idempotent (x d : NtrFile) (h : validateNtrFile x = some d) :
    validateNtrFile d = some d := by
  unfold validateNtrFile at h
  rcases h1 : checkTrimMin1 x.id with _ | id' <;> rw [h1] at h <;> try simp at h
  rcases h2 : validateMetadata x.metadata with _ | md <;> rw [h2] at h <;> try simp at h
  rcases h3 : validateDefinitions x.nominalDiameters with _ | dn <;> rw [h3] at h
    <;> try simp at h
  rcases h4 : traverseOpt validateElement x.elements with _ | els <;> rw [h4] at h
    <;> try simp at h
  rcases h5 : traverseOpt validateIssue x.issues with _ | iss <;> rw [h5] at h
    <;> try simp at h
  subst h
  have hid : asIdentifier id' = id' := checkTrimMin1_trimmed h1
  unfold validateNtrFile
  dsimp only
  rw [hid, checkTrimMin1_idem h1, validateMetadata_idem h2, validateDefinitions_idem h3,
    traverseOpt_idem (fun _ _ => validateElement_idem) _ _ h4,
    traverseOpt_idem (fun _ _ => validateIssue_idem) _ _ h5]
  dsimp only
  rw [hid]

/-- Witness for C5: a concrete document with untrimmed id and definition key
is normalized once, and re-validating the result returns it unchanged. -/
theorem validation_idempotent_witness :
    validateNtrFile
      { id := str " doc ", metadata := {}
        nominalDiameters := [(str " DN150 ", ⟨.num 1, none⟩)]
        elements := [], issues := [] } =
      some { id := str "doc", metadata := {}
             nominalDiameters := [(str "DN150", ⟨.num 1, none⟩)]
             elements := [], issues := [] } ∧
    validateNtrFile
      { id := str "doc", metadata := {}
        nominalDiameters := [(str "DN150", ⟨.num 1, none⟩)]
        elements := [], issues := [] } =
      some { id := str "doc", metadata := {}
             nominalDiameters := [(str "DN150", ⟨.num 1, none⟩)]
             elements := [], issues := [] } := by
  constructor
  · decide
  · exact validation_idempotent
      { id := str " doc ", metadata := {}
        nominalDiameters := [(str " DN150 ", ⟨.num 1, none⟩)]
        elements := [], issues := [] } _ (by decide)

/-! ## Bounding-box invariant (claim C6) -/

lemma jsLe_refl (a : JSNum) : jsLe a a = true := by
  cases a <;> simp [jsLe]

lemma jsLe_trans {a b c : JSNum} (h1 : jsLe a b = true) (h2 : jsLe b c = true) :
    jsLe a c = true := by
  cases a <;> cases b <;> cases c <;> simp [jsLe] at *
  exact le_trans h1 h2

lemma jsLe_total {a b : JSNum} (h : jsLe a b = false) : jsLe b a = true := by
  cases a <;> cases b <;> simp [jsLe] at *
  exact le_of_lt h

lemma jsLe_min_left (a b : JSNum) : jsLe (jsMin a b) a = true := by
  unfold jsMin
  split_ifs with h
  · exact jsLe_refl a
  · simp at h
    exact jsLe_total h

lemma jsLe_min_right (a b : JSNum) : jsLe (jsMin a b) b = true := by
  unfold jsMin
  split_ifs with h
  · exact h
  · exact jsLe_refl b

lemma jsLe_max_left (a b : JSNum) : jsLe a (jsMax a b) = true := by
  unfold jsMax
  split_ifs with h
  · exact h
  · exact jsLe_refl a

lemma jsLe_max_right (a b : JSNum) : jsLe b (jsMax a b) = true := by
  unfold jsMax
  split_ifs with h
  · exact jsLe_refl b
  · simp at h
    exact jsLe_total h

lemma v3Le_refl (a : V3 JSNum) : v3Le a a = true := by
  simp [v3Le, jsLe_refl]

lemma boundsContain_add_self (b : Option BoundingBox) (p : V3 JSNum) :
    boundsContain (boundsAdd b p) p = true := by
  cases b with
  | none => simp [boundsAdd, boundsContain, v3Le_refl]
  | some bb =>
    simp only [boundsAdd, boundsContain, v3Le, Bool.and_eq_true]
    exact ⟨⟨⟨jsLe_min_right _ _, jsLe_min_right _ _⟩, jsLe_min_right _ _⟩,
      ⟨⟨jsLe_max_right _ _, jsLe_max_right _ _⟩, jsLe_max_right _ _⟩⟩

lemma boundsContain_add_mono {b : Option BoundingBox} {q : V3 JSNum}
    (h : boundsContain b q = true) (p : V3 JSNum) :
    boundsContain (boundsAdd b p) q = true := by
  cases b with
  | none => simp [boundsContain] at h
  | some bb =>
    simp only [boundsContain, v3Le, Bool.and_eq_true] at h
    obtain ⟨⟨⟨hx1, hy1⟩, hz1⟩, ⟨⟨hx2, hy2⟩, hz2⟩⟩ := h
    simp only [boundsAdd, boundsContain, v3Le, Bool.and_eq_true]
    exact ⟨⟨⟨jsLe_trans (jsLe_min_left _ _) hx1, jsLe_trans (jsLe_min_left _ _) hy1⟩,
        jsLe_trans (jsLe_min_left _ _) hz1⟩,
      ⟨⟨jsLe_trans hx2 (jsLe_max_left _ _), jsLe_trans hy2 (jsLe_max_left _ _)⟩,
        jsLe_trans hz2 (jsLe_max_left _ _)⟩⟩

lemma boundsContain_foldl_mono {ps : List (V3 JSNum)} {b : Option BoundingBox}
    {q : V3 JSNum} (h : boundsContain b q = true) :
    boundsContain (ps.foldl boundsAdd b) q = true := by
  induction ps generalizing b with
  | nil => exact h
  | cons p rest ih =>
    rw [List.foldl_cons]
    exact ih (boundsContain_add_mono h p)

lemma boundsContain_foldl_mem {ps : List (V3 JSNum)} {q : V3 JSNum} (hq : q ∈ ps)
    (b : Option BoundingBox) : boundsContain (ps.foldl boundsAdd b) q = true := by
  induction ps generalizing b with
  | nil => simp at hq
  | cons p rest ih =>
    rw [List.foldl_cons]
    rcases List.mem_cons.1 hq with rfl | hq'
    · exact boundsContain_foldl_mono (boundsContain_add_self b q)
    · exact ih hq' _

lemma boundsAdd_ne_none (b : Option BoundingBox) (p : V3 JSNum) :
    boundsAdd b p ≠ none := by
  cases b <;> simp [boundsAdd]

lemma foldl_boundsAdd_none_iff (ps : List (V3 JSNum)) (b : Option BoundingBox) :
    ps.foldl boundsAdd b = none ↔ b = none ∧ ps = [] := by
  induction ps generalizing b with
  | nil => simp
  | cons p rest ih =>
    rw [List.foldl_cons, ih]
    constructor
    · rintro ⟨h1, _⟩
      exact absurd h1 (boundsAdd_ne_none b p)
    · rintro ⟨_, h2⟩
      cases h2

lemma resolvePoint_bounds (pt : PointRef) (b : Option BoundingBox) :
    (resolvePoint pt b).2 =
      (coordPositions [(resolvePoint pt b).1]).foldl boundsAdd b := by
  cases pt <;> rfl

lemma convertElement_bounds (e : Element) (id : Str) (b : Option BoundingBox)
    (lookup : List (Str × NominalDiameterDefinition)) :
    (convertElement e id b lookup).2 =
      (coordPositions (scenePoints (convertElement e id b lookup).1)).foldl boundsAdd b := by
  cases e with
  | ro base start pend dn =>
    cases start <;> cases pend <;> rfl
  | bog base start pend tangent dn =>
    cases start <;> cases pend <;> cases tangent <;> rfl
  | tee base ms me bs be dnh dna tt =>
    cases ms <;> cases me <;> cases bs <;> cases be <;> rfl
  | arm base start pend center dn1 dn2 w =>
    cases start <;> cases pend <;> cases center <;> rfl
  | prof base start pend typ axis dir =>
    cases dir with
    | none => cases start <;> cases pend <;> rfl
    | some d => cases start <;> cases pend <;> cases d <;> rfl
  | red base start pend dn1 dn2 =>
    cases start <;> cases pend <;> rfl

lemma buildSceneGraphGo_bounds (lookup : List (Str × NominalDiameterDefinition)) :
    ∀ (elems : List Element) (i : ℕ) (b : Option BoundingBox),
      (buildSceneGraphGo lookup elems i b).2 =
        ((buildSceneGraphGo lookup elems i b).1.map
          (fun se => coordPositions (scenePoints se))).flatten.foldl boundsAdd b := by
  intro elems
  induction elems with
  | nil => intro i b; rfl
  | cons e rest ih =>
    intro i b
    show (buildSceneGraphGo lookup rest (i + 1) (convertElement e (elementId i) b lookup).2).2 =
      _
    rw [ih]
    have hconv := convertElement_bounds e (elementId i) b lookup
    rw [hconv]
    show _ = (List.map (fun se => coordPositions (scenePoints se))
        ((convertElement e (elementId i) b lookup).1 ::
          (buildSceneGraphGo lookup rest (i + 1)
            (convertElement e (elementId i) b lookup).2).1)).flatten.foldl boundsAdd b
    rw [List.map_cons, List.flatten_cons, List.foldl_append, ← hconv]

/-- C6: the derived scene graph's bounding box contains (componentwise
`min ≤ p ≤ max`) the scene position of every resolved coordinate point of
every element, and the box is `null` exactly when no coordinate point was
resolved; unresolved named-node points contribute nothing (they carry no
scene position at all). -/
theorem scene_bounds_invariant (file : NtrFile) :
    (∀ se ∈ (buildSceneGraph file).elements, ∀ p ∈ coordPositions (scenePoints se),
      boundsContain (buildSceneGraph file).bounds p = true) ∧
    ((buildSceneGraph file).bounds = none ↔
      ∀ se ∈ (buildSceneGraph file).elements, coordPositions (scenePoints se) = []) := by
  have hgo := buildSceneGraphGo_bounds file.nominalDiameters file.elements 0 none
  constructor
  · intro se hse p hp
    show boundsContain (buildSceneGraphGo file.nominalDiameters file.elements 0 none).2 p = true
    rw [hgo]
    apply boundsContain_foldl_mem
    rw [List.mem_flatten]
    exact ⟨coordPositions (scenePoints se), List.mem_map_of_mem _ hse, hp⟩
  · show (buildSceneGraphGo file.nominalDiameters file.elements 0 none).2 = none ↔ _
    rw [hgo, foldl_boundsAdd_none_iff]
    simp only [true_and]
    constructor
    · intro hnil se hse
      rw [List.flatten_eq_nil_iff] at hnil
      exact hnil _ (List.mem_map_of_mem _ hse)
    · intro hall
      rw [List.flatten_eq_nil_iff]
      intro ps hps
      rw [List.mem_map] at hps
      obtain ⟨se, hse, rfl⟩ := hps
      exact hall se hse

/-- Witness for C6 at a concrete one-element document (`RO` from a
coordinate to a named node): the single resolved scene position lies inside
the box and the box is not `null`. -/
theorem scene_bounds_invariant_witness :
    boundsContain
      (buildSceneGraph
        { id := str "doc", metadata := {}, nominalDiameters := []
          elements := [.ro {} (.coordinate ⟨.num 1, .num 2, .num 3⟩) (.named (str "N1"))
            (str "DN150")]
          issues := [] }).bounds ⟨.num 1, .num 3, .num 2⟩ = true := by
  exact (scene_bounds_invariant
    { id := str "doc", metadata := {}, nominalDiameters := []
      elements := [.ro {} (.coordinate ⟨.num 1, .num 2, .num 3⟩) (.named (str "N1"))
        (str "DN150")]
      issues := [] }).1
    ((buildSceneGraph
      { id := str "doc", metadata := {}, nominalDiameters := []
        elements := [.ro {} (.coordinate ⟨.num 1, .num 2, .num 3⟩) (.named (str "N1"))
          (str "DN150")]
        issues := [] }).elements.head (by decide))
    (List.head_mem _) ⟨.num 1, .num 3, .num 2⟩ (by decide)

/-! ## Bend-arc geometry (claims C1 and C2) -/

lemma tol_pos : (0 : ℝ) < tol := by
  unfold tol
  norm_num

lemma lengthSquared_eq_dot (a : R3) : lengthSquared a = dot a a := by
  unfold lengthSquared dot
  ring

lemma lengthSquared_nonneg (a : R3) : 0 ≤ lengthSquared a := by
  unfold lengthSquared
  nlinarith [mul_self_nonneg a.x, mul_self_nonneg a.y, mul_self_nonneg a.z]

lemma dot_comm (a b : R3) : dot a b = dot b a := by
  unfold dot
  ring

lemma dot_smul_left (c : ℝ) (a b : R3) : dot (smul3 c a) b = c * dot a b := by
  unfold dot smul3
  ring

lemma dot_smul_right (c : ℝ) (a b : R3) : dot a (smul3 c b) = c * dot a b := by
  unfold dot smul3
  ring

lemma dot_vsub_left (a b c : R3) : dot (vsub a b) c = dot a c - dot b c := by
  unfold dot vsub
  ring

lemma dot_self_cross (a b : R3) : dot a (cross a b) = 0 := by
  unfold dot cross
  ring

lemma dot_other_cross (a b : R3) : dot b (cross a b) = 0 := by
  unfold dot cross
  ring

lemma lengthSquared_cross (a b : R3) :
    lengthSquared (cross a b) = dot a a * dot b b - dot a b ^ 2 := by
  unfold lengthSquared cross dot
  ring

/-- Gram identity: the square of the triple product `a · (u × n)` equals the
Gram determinant of `(a, u, n)`. -/
lemma gram_identity (a u n : R3) :
    dot a (cross u n) ^ 2 =
      dot a a * (dot u u * dot n n - dot u n ^ 2)
        - dot a u * (dot a u * dot n n - dot u n * dot a n)
        + dot a n * (dot a u * dot u n - dot u u * dot a n) := by
  unfold dot cross
  ring

lemma smul3_smul3 (c d : ℝ) (a : R3) : smul3 c (smul3 d a) = smul3 (c * d) a := by
  unfold smul3
  simp only [V3.mk.injEq]
  refine ⟨by ring, by ring, by ring⟩

lemma smul3_one (a : R3) : smul3 1 a = a := by
  unfold smul3
  simp

lemma length_sq (a : R3) : length a * length a = lengthSquared a :=
  Real.mul_self_sqrt (lengthSquared_nonneg a)

lemma length_pos {a : R3} (h : 0 < lengthSquared a) : 0 < length a :=
  Real.sqrt_pos.mpr h

lemma dot_normalize_self {a : R3} (h : 0 < lengthSquared a) :
    dot (normalize a) (normalize a) = 1 := by
  unfold normalize
  rw [dot_smul_left, dot_smul_right, ← lengthSquared_eq_dot]
  have hL : 0 < length a := length_pos h
  have hsq : length a * length a = lengthSquared a := length_sq a
  field_simp
  linarith [hsq]

lemma smul3_length_normalize {a : R3} (h : 0 < lengthSquared a) :
    smul3 (length a) (normalize a) = a := by
  unfold normalize
  rw [smul3_smul3]
  have hL : 0 < length a := length_pos h
  rw [mul_one_div, div_self (ne_of_gt hL), smul3_one]

lemma dot_vsub_right (a b c : R3) : dot a (vsub b c) = dot a b - dot a c := by
  unfold dot vsub
  ring

lemma dot_vsub_self (w e : R3) :
    dot (vsub w e) (vsub w e) = dot w w - 2 * dot w e + dot e e := by
  unfold dot vsub
  ring

lemma e_decomp (S T E : R3) : vsub E S = vsub (vsub T S) (vsub T E) := by
  unfold vsub
  simp only [V3.mk.injEq]
  refine ⟨by ring, by ring, by ring⟩

lemma d2_decomp (S T E : R3) : vsub T E = vsub (vsub T S) (vsub E S) := by
  unfold vsub
  simp only [V3.mk.injEq]
  refine ⟨by ring, by ring, by ring⟩

lemma vsub_vadd_cancel (a w : R3) : vsub (vadd a w) a = w := by
  obtain ⟨wx, wy, wz⟩ := w
  unfold vsub vadd
  simp only [V3.mk.injEq]
  refine ⟨by ring, by ring, by ring⟩

lemma vsub_vadd_swap (E a w : R3) : vsub E (vadd a w) = vsub (vsub E a) w := by
  unfold vsub vadd
  simp only [V3.mk.injEq]
  refine ⟨by ring, by ring, by ring⟩

/-- C1 (amended): for a bend whose guards pass (`fitBendArc` returns an
arc), the fitted circle passes through `S` and `E` with the center
equidistant from both (exactly, over `ℝ`): `|center−S|² = |center−E|² = r²`;
the tangent at `S` matches the control direction `S→T` (the radius at `S` is
perpendicular to `S→T`, and the basis vector `u` is the unit vector along
`S→T`); the radius is `r = (ex² + ey²)/(2·ey)` in the `(u, v)` basis with
`ey > 0`; and the tangent direction at `E` matches the control direction
`T→E` exactly when the two control segments have equal length
(`|T−S| = |T−E|`), which the counterexample shows is a real restriction. -/
theorem bend_arc_fitting (S T E : R3) (fit : BendFit)
    (h : fitBendArc S T E = some fit) :
    dot (vsub fit.center S) (vsub fit.center S) = fit.radius ^ 2 ∧
    dot (vsub fit.center E) (vsub fit.center E) = fit.radius ^ 2 ∧
    dot (vsub fit.center S) (vsub T S) = 0 ∧
    fit.u = normalize (vsub T S) ∧
    fit.radius = (fit.ex * fit.ex + fit.ey * fit.ey) / (2 * fit.ey) ∧
    0 < fit.ey ∧
    (lengthSquared (vsub T S) = lengthSquared (vsub T E) →
      dot (vsub E fit.center) (vsub T E) = 0) := by
  unfold fitBendArc at h
  split_ifs at h with g1 g2 g3 g4 g5
  simp only [Option.some.injEq] at h
  subst h
  dsimp only
  -- basic positivity from the guards
  have hd1 : 0 < lengthSquared (vsub T S) := by
    rcases not_or.1 g1 with ⟨h1a, _⟩
    exact lt_of_lt_of_le tol_pos (not_lt.1 h1a)
  have hpn : 0 < lengthSquared (bendPlaneNormal S T E) :=
    lt_of_lt_of_le tol_pos (not_lt.1 g2)
  have hL : 0 < length (vsub T S) := length_pos hd1
  -- orthonormal frame
  have hu : dot (bendU S T) (bendU S T) = 1 := dot_normalize_self hd1
  have hn : dot (bendN S T E) (bendN S T E) = 1 := dot_normalize_self hpn
  have hun : dot (bendU S T) (bendN S T E) = 0 := by
    show dot (normalize (vsub T S)) (normalize (bendPlaneNormal S T E)) = 0
    unfold normalize bendPlaneNormal
    rw [dot_smul_left, dot_smul_right, dot_self_cross]
    ring
  have hen : dot (vsub E S) (bendN S T E) = 0 := by
    show dot (vsub E S) (normalize (bendPlaneNormal S T E)) = 0
    unfold normalize bendPlaneNormal
    rw [dot_smul_right, e_decomp S T E, dot_vsub_left, dot_self_cross, dot_other_cross]
    ring
  have hv0len : lengthSquared (bendV0 S T E) = 1 := by
    show lengthSquared (cross (bendU S T) (bendN S T E)) = 1
    rw [lengthSquared_cross, hu, hn, hun]
    norm_num
  have hv1 : bendV1 S T E = bendV0 S T E := by
    show normalize (bendV0 S T E) = bendV0 S T E
    unfold normalize length
    rw [hv0len, Real.sqrt_one]
    norm_num [smul3_one]
  have hv1v1 : dot (bendV1 S T E) (bendV1 S T E) = 1 := by
    rw [hv1, ← lengthSquared_eq_dot]
    exact hv0len
  have hv1u : dot (bendV1 S T E) (bendU S T) = 0 := by
    rw [hv1]
    show dot (cross (bendU S T) (bendN S T E)) (bendU S T) = 0
    rw [dot_comm, dot_self_cross]
  have hd1u : smul3 (length (vsub T S)) (bendU S T) = vsub T S :=
    smul3_length_normalize hd1
  have hv1d1 : dot (bendV1 S T E) (vsub T S) = 0 := by
    rw [← hd1u, dot_smul_right, hv1u]
    ring
  -- the flipped basis vector and ey
  have hvv : dot (bendV S T E) (bendV S T E) = 1 := by
    unfold bendV
    split_ifs
    · rw [dot_smul_left, dot_smul_right, hv1v1]
      ring
    · exact hv1v1
  have hvd1 : dot (bendV S T E) (vsub T S) = 0 := by
    unfold bendV
    split_ifs
    · rw [dot_smul_left, hv1d1]
      ring
    · exact hv1d1
  have hev : dot (vsub E S) (bendV S T E) = bendEy S T E := by
    unfold bendV bendEy
    split_ifs
    · rw [dot_smul_right]
      show -1 * bendEy1 S T E = -bendEy1 S T E
      ring
    · rfl
  have heypos : 0 < bendEy S T E := by
    have habs : tol ≤ |bendEy1 S T E| := not_lt.1 g4
    unfold bendEy
    split_ifs with hflip
    · linarith [tol_pos, abs_of_neg hflip ▸ habs]
    · have := abs_of_nonneg (not_lt.1 hflip) ▸ habs
      linarith [tol_pos]
  have heysq : bendEy S T E ^ 2 = bendEy1 S T E ^ 2 := by
    unfold bendEy
    split_ifs
    · ring
    · rfl
  -- |E−S|² = ex² + ey²  (Gram identity in the orthonormal frame)
  have hgram : dot (vsub E S) (vsub E S) = bendEx S T E ^ 2 + bendEy S T E ^ 2 := by
    have hg := gram_identity (vsub E S) (bendU S T) (bendN S T E)
    rw [hu, hn, hun, hen] at hg
    have hEcross : dot (vsub E S) (cross (bendU S T) (bendN S T E)) = bendEy1 S T E := by
      rw [show cross (bendU S T) (bendN S T E) = bendV0 S T E from rfl, ← hv1]
      rfl
    rw [hEcross] at hg
    have hex : dot (vsub E S) (bendU S T) = bendEx S T E := rfl
    rw [hex] at hg
    rw [heysq]
    nlinarith [hg]
  have hr2 : 2 * bendRadius S T E * bendEy S T E =
      bendEx S T E ^ 2 + bendEy S T E ^ 2 := by
    unfold bendRadius
    field_simp
    ring
  -- conclusions
  have hcS : vsub (bendCenter S T E) S = smul3 (bendRadius S T E) (bendV S T E) := by
    unfold bendCenter
    exact vsub_vadd_cancel S _
  have hEc : vsub E (bendCenter S T E) =
      vsub (vsub E S) (smul3 (bendRadius S T E) (bendV S T E)) := by
    unfold bendCenter
    exact vsub_vadd_swap E S _
  have hcE : vsub (bendCenter S T E) E =
      vsub (smul3 (bendRadius S T E) (bendV S T E)) (vsub E S) := by
    unfold bendCenter vsub vadd smul3
    simp only [V3.mk.injEq]
    refine ⟨by ring, by ring, by ring⟩
  have hww : dot (smul3 (bendRadius S T E) (bendV S T E))
      (smul3 (bendRadius S T E) (bendV S T E)) =
      bendRadius S T E * bendRadius S T E := by
    rw [dot_smul_left, dot_smul_right, hvv]
    ring
  have hwe : dot (smul3 (bendRadius S T E) (bendV S T E)) (vsub E S) =
      bendRadius S T E * bendEy S T E := by
    rw [dot_smul_left, dot_comm (bendV S T E) (vsub E S), hev]
  refine ⟨?_, ?_, ?_, rfl, rfl, heypos, ?_⟩
  · rw [hcS, dot_smul_left, dot_smul_right, hvv]
    ring
  · rw [hcE, dot_vsub_self, hww, hwe, hgram]
    nlinarith [hr2]
  · rw [hcS, dot_smul_left, hvd1]
    ring
  · intro hiso
    have hedot : dot (vsub E S) (vsub T S) =
        length (vsub T S) * bendEx S T E := by
      conv_lhs => rw [← hd1u]
      rw [dot_smul_right]
      rfl
    have hd2 : vsub T E = vsub (vsub T S) (vsub E S) := d2_decomp S T E
    have hvd2 : dot (bendV S T E) (vsub T E) = -(bendEy S T E) := by
      rw [hd2, dot_vsub_right, hvd1, dot_comm, hev]
      ring
    have hiso2 : 2 * (length (vsub T S) * bendEx S T E) =
        bendEx S T E ^ 2 + bendEy S T E ^ 2 := by
      have hexp : lengthSquared (vsub T E) =
          lengthSquared (vsub T S) - 2 * dot (vsub E S) (vsub T S) +
            dot (vsub E S) (vsub E S) := by
        unfold lengthSquared dot vsub
        ring
      rw [hiso, hedot, hgram] at hexp
      linarith
    have h1 : dot (vsub E S) (vsub T E) =
        length (vsub T S) * bendEx S T E -
          (bendEx S T E ^ 2 + bendEy S T E ^ 2) := by
      rw [hd2, dot_vsub_right, hedot, hgram]
    have h2 : dot (smul3 (bendRadius S T E) (bendV S T E)) (vsub T E) =
        bendRadius S T E * -(bendEy S T E) := by
      rw [dot_smul_left, hvd2]
    rw [hEc, dot_vsub_left, h1, h2]
    linarith [hiso2, hr2]


/-! C1 concrete evaluation and counterexample, C2. -/

lemma fitBendArc_example :
    fitBendArc ⟨0, 0, 0⟩ ⟨1, 0, 0⟩ ⟨1, 3, 0⟩ =
      some ⟨⟨0, 5 / 3, 0⟩, ⟨1, 0, 0⟩, ⟨0, 1, 0⟩, 5 / 3, 1, 3⟩ := by
  have hTS : vsub (⟨1, 0, 0⟩ : R3) ⟨0, 0, 0⟩ = ⟨1, 0, 0⟩ := by
    unfold vsub
    simp only [V3.mk.injEq]
    norm_num
  have hTE : vsub (⟨1, 0, 0⟩ : R3) ⟨1, 3, 0⟩ = ⟨0, -3, 0⟩ := by
    unfold vsub
    simp only [V3.mk.injEq]
    norm_num
  have hES : vsub (⟨1, 3, 0⟩ : R3) ⟨0, 0, 0⟩ = ⟨1, 3, 0⟩ := by
    unfold vsub
    simp only [V3.mk.injEq]
    norm_num
  have hlsTS : lengthSquared (⟨1, 0, 0⟩ : R3) = 1 := by
    unfold lengthSquared
    norm_num
  have hlsTE : lengthSquared (⟨0, -3, 0⟩ : R3) = 9 := by
    unfold lengthSquared
    norm_num
  have h9 : Real.sqrt 9 = 3 := by
    rw [show (9 : ℝ) = 3 ^ 2 by norm_num]
    exact Real.sqrt_sq (by norm_num)
  have hU : bendU ⟨0, 0, 0⟩ ⟨1, 0, 0⟩ = ⟨1, 0, 0⟩ := by
    unfold bendU normalize length
    rw [hTS, hlsTS, Real.sqrt_one]
    unfold smul3
    simp only [V3.mk.injEq]
    norm_num
  have hPN : bendPlaneNormal ⟨0, 0, 0⟩ ⟨1, 0, 0⟩ ⟨1, 3, 0⟩ = ⟨0, 0, -3⟩ := by
    unfold bendPlaneNormal
    rw [hTS, hTE]
    unfold cross
    simp only [V3.mk.injEq]
    norm_num
  have hlsPN : lengthSquared (⟨0, 0, -3⟩ : R3) = 9 := by
    unfold lengthSquared
    norm_num
  have hN : bendN ⟨0, 0, 0⟩ ⟨1, 0, 0⟩ ⟨1, 3, 0⟩ = ⟨0, 0, -1⟩ := by
    unfold bendN normalize length
    rw [hPN, hlsPN, h9]
    unfold smul3
    simp only [V3.mk.injEq]
    norm_num
  have hV0 : bendV0 ⟨0, 0, 0⟩ ⟨1, 0, 0⟩ ⟨1, 3, 0⟩ = ⟨0, 1, 0⟩ := by
    unfold bendV0
    rw [hU, hN]
    unfold cross
    simp only [V3.mk.injEq]
    norm_num
  have hlsV0 : lengthSquared (⟨0, 1, 0⟩ : R3) = 1 := by
    unfold lengthSquared
    norm_num
  have hV1 : bendV1 ⟨0, 0, 0⟩ ⟨1, 0, 0⟩ ⟨1, 3, 0⟩ = ⟨0, 1, 0⟩ := by
    unfold bendV1 normalize length
    rw [hV0, hlsV0, Real.sqrt_one]
    unfold smul3
    simp only [V3.mk.injEq]
    norm_num
  have hEx : bendEx ⟨0, 0, 0⟩ ⟨1, 0, 0⟩ ⟨1, 3, 0⟩ = 1 := by
    unfold bendEx
    rw [hES, hU]
    unfold dot
    norm_num
  have hEy1 : bendEy1 ⟨0, 0, 0⟩ ⟨1, 0, 0⟩ ⟨1, 3, 0⟩ = 3 := by
    unfold bendEy1
    rw [hES, hV1]
    unfold dot
    norm_num
  have hVv : bendV ⟨0, 0, 0⟩ ⟨1, 0, 0⟩ ⟨1, 3, 0⟩ = ⟨0, 1, 0⟩ := by
    unfold bendV
    rw [hEy1, if_neg (by norm_num : ¬(3 : ℝ) < 0)]
    exact hV1
  have hEy : bendEy ⟨0, 0, 0⟩ ⟨1, 0, 0⟩ ⟨1, 3, 0⟩ = 3 := by
    unfold bendEy
    rw [hEy1, if_neg (by norm_num : ¬(3 : ℝ) < 0)]
  have hR : bendRadius ⟨0, 0, 0⟩ ⟨1, 0, 0⟩ ⟨1, 3, 0⟩ = 5 / 3 := by
    unfold bendRadius
    rw [hEx, hEy]
    norm_num
  have hC : bendCenter ⟨0, 0, 0⟩ ⟨1, 0, 0⟩ ⟨1, 3, 0⟩ = ⟨0, 5 / 3, 0⟩ := by
    unfold bendCenter
    rw [hR, hVv]
    unfold vadd smul3
    simp only [V3.mk.injEq]
    norm_num
  unfold fitBendArc
  rw [hTS, hTE, hlsTS, hlsTE]
  rw [if_neg (by unfold tol; push_neg; constructor <;> norm_num :
    ¬((1 : ℝ) < tol ∨ (9 : ℝ) < tol))]
  rw [hPN, hlsPN]
  rw [if_neg (by unfold tol; norm_num : ¬(9 : ℝ) < tol)]
  rw [hV0, hlsV0]
  rw [if_neg (by unfold tol; norm_num : ¬(1 : ℝ) < tol)]
  rw [hEy1]
  rw [if_neg (by
    unfold tol
    rw [show |(3 : ℝ)| = 3 from abs_of_pos (by norm_num)]
    norm_num : ¬|(3 : ℝ)| < tol)]
  rw [hR]
  rw [if_neg (by unfold tol; norm_num : ¬(5 / 3 : ℝ) ≤ tol)]
  rw [hC, hU, hVv, hEx, hEy]

/-- C1 counterexample: at S = (0,0,0), T = (1,0,0), E = (1,3,0) the guards
pass and an arc is produced, but the radius at `E` is not perpendicular to
the control direction `T→E`: the dot product is `-4`, not `0`, so the
tangent at `E` does not match `T→E`. The control segments have lengths 1
and 3, which is the obstruction. -/
theorem bend_e_tangent_mismatch :
    fitBendArc ⟨0, 0, 0⟩ ⟨1, 0, 0⟩ ⟨1, 3, 0⟩ =
      some ⟨⟨0, 5 / 3, 0⟩, ⟨1, 0, 0⟩, ⟨0, 1, 0⟩, 5 / 3, 1, 3⟩ ∧
    dot (vsub (⟨1, 3, 0⟩ : R3) ⟨0, 5 / 3, 0⟩) (vsub (⟨1, 0, 0⟩ : R3) ⟨1, 3, 0⟩) = -4 := by
  refine ⟨fitBendArc_example, ?_⟩
  unfold dot vsub
  norm_num

/-- C1 witness: the theorem applied at S = (0,0,0), T = (1,0,0),
E = (1,3,0), whose fit is computed by `fitBendArc_example`. -/
theorem bend_arc_fitting_witness :
    fitBendArc ⟨0, 0, 0⟩ ⟨1, 0, 0⟩ ⟨1, 3, 0⟩ =
      some ⟨⟨0, 5 / 3, 0⟩, ⟨1, 0, 0⟩, ⟨0, 1, 0⟩, 5 / 3, 1, 3⟩ ∧
    (dot (vsub (⟨0, 5 / 3, 0⟩ : R3) ⟨0, 0, 0⟩) (vsub (⟨0, 5 / 3, 0⟩ : R3) ⟨0, 0, 0⟩) =
        (5 / 3 : ℝ) ^ 2 ∧
      dot (vsub (⟨0, 5 / 3, 0⟩ : R3) ⟨1, 3, 0⟩) (vsub (⟨0, 5 / 3, 0⟩ : R3) ⟨1, 3, 0⟩) =
        (5 / 3 : ℝ) ^ 2 ∧
      dot (vsub (⟨0, 5 / 3, 0⟩ : R3) ⟨0, 0, 0⟩) (vsub (⟨1, 0, 0⟩ : R3) ⟨0, 0, 0⟩) = 0 ∧
      (⟨1, 0, 0⟩ : R3) = normalize (vsub ⟨1, 0, 0⟩ ⟨0, 0, 0⟩) ∧
      (5 / 3 : ℝ) = ((1 : ℝ) * 1 + 3 * 3) / (2 * 3) ∧
      (0 : ℝ) < 3 ∧
      (lengthSquared (vsub (⟨1, 0, 0⟩ : R3) ⟨0, 0, 0⟩) =
          lengthSquared (vsub (⟨1, 0, 0⟩ : R3) ⟨1, 3, 0⟩) →
        dot (vsub (⟨1, 3, 0⟩ : R3) ⟨0, 5 / 3, 0⟩) (vsub (⟨1, 0, 0⟩ : R3) ⟨1, 3, 0⟩) = 0)) :=
  ⟨fitBendArc_example,
    bend_arc_fitting ⟨0, 0, 0⟩ ⟨1, 0, 0⟩ ⟨1, 3, 0⟩ _ fitBendArc_example⟩

/-- C2: whenever any of the degeneracy conditions holds — a near-zero-length
control segment, a near-zero cross product (colinear control points, which
also forces `|ey|` below tolerance), `|ey|` below tolerance, or a computed
radius at or below the guard threshold (the real-arithmetic shadow of
`!Number.isFinite(elbowRadius) || elbowRadius <= 1e-6`) — `createBendMesh`
returns null and the bend is rendered as exactly the two straight segments
`S→T` and `T→E`. -/
theorem bend_degenerate_falls_back (S T E : R3)
    (h : lengthSquared (vsub T S) < tol ∨ lengthSquared (vsub T E) < tol ∨
      lengthSquared (bendPlaneNormal S T E) < tol ∨
      lengthSquared (bendV0 S T E) < tol ∨
      |bendEy1 S T E| < tol ∨ bendRadius S T E ≤ tol) :
    fitBendArc S T E = none ∧
    createBendGeometry S T E = .segments [(S, T), (T, E)] := by
  have hn : fitBendArc S T E = none := by
    unfold fitBendArc
    by_cases h1 : lengthSquared (vsub T S) < tol ∨ lengthSquared (vsub T E) < tol
    · rw [if_pos h1]
    · rw [if_neg h1]
      by_cases h2 : lengthSquared (bendPlaneNormal S T E) < tol
      · rw [if_pos h2]
      · rw [if_neg h2]
        by_cases h3 : lengthSquared (bendV0 S T E) < tol
        · rw [if_pos h3]
        · rw [if_neg h3]
          by_cases h4 : |bendEy1 S T E| < tol
          · rw [if_pos h4]
          · rw [if_neg h4]
            have h5 : bendRadius S T E ≤ tol := by
              rcases h with h | h | h | h | h | h
              · exact absurd (Or.inl h) h1
              · exact absurd (Or.inr h) h1
              · exact absurd h h2
              · exact absurd h h3
              · exact absurd h h4
              · exact h
            rw [if_pos h5]
  refine ⟨hn, ?_⟩
  unfold createBendGeometry
  rw [hn]

/-- C2 witness: the colinear input S = (0,0,0), T = (1,0,0), E = (2,0,0)
trips the plane-normal guard (the cross product is the zero vector) and
falls back to the two segments. -/
theorem bend_degenerate_falls_back_witness :
    lengthSquared (bendPlaneNormal ⟨0, 0, 0⟩ ⟨1, 0, 0⟩ ⟨2, 0, 0⟩) < tol ∧
    (fitBendArc ⟨0, 0, 0⟩ ⟨1, 0, 0⟩ ⟨2, 0, 0⟩ = none ∧
      createBendGeometry ⟨0, 0, 0⟩ ⟨1, 0, 0⟩ ⟨2, 0, 0⟩ =
        .segments [(⟨0, 0, 0⟩, ⟨1, 0, 0⟩), (⟨1, 0, 0⟩, ⟨2, 0, 0⟩)]) := by
  have hg : lengthSquared (bendPlaneNormal (⟨0, 0, 0⟩ : R3) ⟨1, 0, 0⟩ ⟨2, 0, 0⟩) < tol := by
    unfold bendPlaneNormal cross vsub lengthSquared tol
    norm_num
  exact ⟨hg, bend_degenerate_falls_back ⟨0, 0, 0⟩ ⟨1, 0, 0⟩ ⟨2, 0, 0⟩
    (Or.inr (Or.inr (Or.inl hg)))⟩

end NTR
